import Mathlib

/-!
Shallow embedding of the cross-tabulation core of the `interlytics` survey
analysis tool, together with theorems settling the specification claims.

Modelling conventions, used consistently below:

* Spreadsheet cells are strings; a data row (a JS object keyed by header) is an
  association list from header name to cell text, and a missing key reads as
  the empty string, mirroring `String(row[h] || '')`.
* JS string primitives (`trim`, `toLowerCase`, `includes`, code-unit `<`,
  `Array.prototype.sort`) are re-implemented over character lists so that the
  kernel can evaluate them; `sort` is modelled by a stable insertion sort,
  matching the (stable, comparator-driven) JS sort.
* JS numbers are modelled by exact rationals.  The transcendental library
  calls (`Math.sqrt`, `Math.exp`, `Math.log`) and the `new Date(...)` parser
  are not computable functions of their rational argument, so they enter the
  model as an explicit environment `JsEnv`; theorems that depend on their
  numeric values carry interval hypotheses that IEEE-754 doubles satisfy with
  very wide margins.
* `Math.round` is floor(x + 1/2), exactly the JS half-up rounding.
-/

namespace Interlytics

/-- Character-list version of `String.trim` (drop Unicode whitespace at both ends). -/
def trimChars (cs : List Char) : List Char :=
  ((cs.dropWhile Char.isWhitespace).reverse.dropWhile Char.isWhitespace).reverse

/-- JS `String.prototype.trim`. -/
def jsTrim (s : String) : String := (trimChars s.toList).asString

/-- JS `String.prototype.toLowerCase` (simple per-character lowering). -/
def jsLower (s : String) : String := (s.toList.map Char.toLower).asString

/-- Code-point lexicographic order on character lists; agrees with the JS
`<` comparison on strings of basic-plane characters. -/
def lexLt : List Char → List Char → Bool
  | [], [] => false
  | [], _ :: _ => true
  | _ :: _, [] => false
  | a :: as, b :: bs =>
    if a.val < b.val then true else if b.val < a.val then false else lexLt as bs

/-- JS string `<`. -/
def jsStrLt (a b : String) : Bool := lexLt a.toList b.toList

/-- Does `l` contain `sub` as a contiguous run? -/
def infixCheck (sub : List Char) : List Char → Bool
  | [] => sub.isEmpty
  | c :: rest => sub.isPrefixOf (c :: rest) || infixCheck sub rest

/-- JS `String.prototype.includes`. -/
def strContains (s sub : String) : Bool := infixCheck sub.toList s.toList

/-- Stable insertion of `x` into a list already sorted by the strict
comes-before test `lt` (the JS comparator returning a negative number). -/
def jsSortInsert (lt : α → α → Bool) (x : α) : List α → List α
  | [] => [x]
  | y :: ys => if lt y x then y :: jsSortInsert lt x ys else x :: y :: ys

/-- Stable sort by the strict comes-before test `lt`; models the (stable)
JS `Array.prototype.sort`. -/
def jsSort (lt : α → α → Bool) (l : List α) : List α :=
  l.foldr (jsSortInsert lt) []

theorem length_jsSortInsert (lt : α → α → Bool) (x : α) (l : List α) :
    (jsSortInsert lt x l).length = l.length + 1 := by
  induction l with
  | nil => rfl
  | cons y ys ih =>
    simp only [jsSortInsert]
    split <;> simp [ih]

theorem length_jsSort (lt : α → α → Bool) (l : List α) :
    (jsSort lt l).length = l.length := by
  induction l with
  | nil => rfl
  | cons y ys ih => simp [jsSort, List.foldr] at ih ⊢; simp [length_jsSortInsert, ih]

/-- JS `Math.round`: round half toward positive infinity. -/
def jsRound (q : ℚ) : ℤ := ⌊q + 1/2⌋

/-- Digit run at the front of a character list. -/
def takeDigits (cs : List Char) : List Char := cs.takeWhile Char.isDigit

/-- JS `Number(s)` restricted to plain decimal literals: `none` models `NaN`.
The empty (or all-whitespace) string converts to 0, as in JS.  Hex, binary and
`Infinity` literals are not modelled; no claim depends on them. -/
def jsNumber (s : String) : Option ℚ :=
  let cs := trimChars s.toList
  if cs.isEmpty then some 0
  else
    let (sign, body) : ℚ × List Char :=
      match cs with
      | '-' :: rest => (-1, rest)
      | '+' :: rest => (1, rest)
      | _ => (1, cs)
    let intPart := takeDigits body
    let afterInt := body.drop intPart.length
    let (fracPart, afterFrac) : List Char × List Char :=
      match afterInt with
      | '.' :: rest => (takeDigits rest, rest.drop (takeDigits rest).length)
      | _ => ([], afterInt)
    if intPart.isEmpty ∧ fracPart.isEmpty then none
    else if ¬ afterFrac.isEmpty then none
    else
      let digitsVal : List Char → ℕ :=
        fun l => l.foldl (fun acc c => 10 * acc + (c.toNat - '0'.toNat)) 0
      let ip : ℚ := digitsVal intPart
      let fp : ℚ := (digitsVal fracPart : ℚ) / ((10 : ℚ) ^ fracPart.length)
      some (sign * (ip + fp))

/-- JS `Number.isInteger` on the rational model. -/
def ratIsInt (q : ℚ) : Bool := q.den = 1

/-- The percentage of `count` over `base` as emitted by every aggregation
path: `base > 0 ? Math.round((count / base) * 100) : 0`. -/
def pctNum (count base : ℕ) : ℤ :=
  if 0 < base then jsRound ((count : ℚ) / (base : ℚ) * 100) else 0

/-- The percentage string cell `${pct}%`. -/
def pctString (count base : ℕ) : String := toString (pctNum count base) ++ "%"

/-- Evaluation rule for `pctNum`: half-up rounding of `100·count/base` equals
the natural-number division `(200·count + base) / (2·base)`. -/
theorem pctNum_eval (count base : ℕ) :
    pctNum count base = if 0 < base then ((200 * count + base) / (2 * base) : ℕ) else 0 := by
  unfold pctNum jsRound
  split
  · rename_i hb
    have hb' : (0 : ℚ) < (base : ℚ) := by exact_mod_cast hb
    have harg : (count : ℚ) / (base : ℚ) * 100 + 1/2
        = ((200 * count + base : ℕ) : ℚ) / ((2 * base : ℕ) : ℚ) := by
      push_cast
      field_simp
      ring
    rw [harg]
    have h2 := Rat.floor_intCast_div_natCast ((200 * count + base : ℕ) : ℤ) (2 * base)
    have h3 : (((200 * count + base : ℕ) : ℤ) : ℚ) = ((200 * count + base : ℕ) : ℚ) := by
      push_cast; ring
    rw [h3] at h2
    rw [h2]
    norm_cast
  · rfl

/-- The flat environment of JS library functions that are not computable
functions of a rational: `Math.sqrt`, `Math.exp`, `Math.log`, and the
`new Date(v)`-parses-to-a-year-in-[1900, 2100] test. -/
structure JsEnv where
  sqrt : ℚ → ℚ
  exp : ℚ → ℚ
  log : ℚ → ℚ
  validDate : String → Bool

/-! ## FilterEngine: `applyFilters` (dataset-level simple-filter pass) -/

/-- The operator vocabulary declared by the `FilterConfig` interface. -/
inductive FilterOp
  | equals | notEquals | contains | notContains
  | greaterThan | lessThan | inRange
  | isEmpty | isNotEmpty | startsWith | endsWith
  deriving DecidableEq, Repr

/-- One dataset-level simple filter (`FilterConfig`). -/
structure FilterConfig where
  column : String
  op : FilterOp
  value : String
  secondValue : Option String := none
  deriving Repr

/-- The raw tabular dataset (`ExcelData` minus the file name). -/
structure ExcelData where
  headers : List String
  rows : List (List String)
  deriving Repr

/-- Index of the first occurrence of `x`, or none; JS `indexOf` (−1 becomes none). -/
def idxOf (x : String) (l : List String) : Option ℕ :=
  (l.enum.find? (fun p => p.2 == x)).map Prod.fst

/-- One filter evaluated on one raw row, exactly the `switch` in
`applyFilters`: unknown indices pass, the seven handled operators compare the
trimmed lowercased cell with the trimmed lowercased filter value, and every
*unhandled* operator (`is_empty`, `is_not_empty`, `starts_with`, `ends_with`)
falls to `default: return true`. -/
def filterKeepsRow (data : ExcelData) (f : FilterConfig) (row : List String) : Bool :=
  match idxOf f.column data.headers with
  | none => true
  | some columnIndex =>
    let cellValue := jsLower (jsTrim (row.getD columnIndex ""))
    let filterValue := jsLower (jsTrim f.value)
    match f.op with
    | .equals => cellValue == filterValue
    | .notEquals => cellValue != filterValue
    | .contains => strContains cellValue filterValue
    | .notContains => ! strContains cellValue filterValue
    | .greaterThan =>
      match jsNumber cellValue, jsNumber filterValue with
      | some a, some b => decide (b < a)
      | _, _ => false
    | .lessThan =>
      match jsNumber cellValue, jsNumber filterValue with
      | some a, some b => decide (a < b)
      | _, _ => false
    | .inRange =>
      match jsNumber cellValue, jsNumber filterValue,
          jsNumber (f.secondValue.getD "0") with
      | some a, some b, some c => decide (b ≤ a) && decide (a ≤ c)
      | _, _, _ => false
    | _ => true

/-- Dataset-level filter pass: keep the rows on which every configured simple
filter evaluates true (`applyFilters`). -/
def applyFilters (data : ExcelData) (filters : List FilterConfig) : ExcelData :=
  if filters.isEmpty then data
  else { data with rows := data.rows.filter (fun row => filters.all (fun f => filterKeepsRow data f row)) }

/-! ## SignificanceTester (`statisticalTests.ts`) -/

/-- Direction of a significant difference. -/
inductive CompType
  | higher | lower | none
  deriving DecidableEq, Repr

/-- Result record of the two-proportion z-test. -/
structure SignificanceTestResult where
  isSignificant : Bool
  pValue : ℚ
  zScore : ℚ
  comparisonType : CompType
  deriving Repr

/-- Abramowitz–Stegun rational approximation of the standard normal CDF,
exactly as coded in `normalCDF`. -/
def normalCDF (K : JsEnv) (x : ℚ) : ℚ :=
  let t : ℚ := 1 / (1 + 0.2316419 * |x|)
  let d : ℚ := 0.3989423 * K.exp (-x * x / 2)
  let prob :=
    d * t * (0.3193815 + t * (-0.3565638 + t * (1.781478 + t * (-1.821256 + t * 1.330274))))
  if 0 < x then 1 - prob else prob

/-- Two-proportion z-test (`zTestForProportions`); the default `alpha` at the
call sites is `1/20`. -/
def zTestForProportions (K : JsEnv) (count1 total1 count2 total2 alpha : ℚ) :
    SignificanceTestResult :=
  if total1 = 0 ∨ total2 = 0 then ⟨false, 1, 0, .none⟩
  else
    let p1 := count1 / total1
    let p2 := count2 / total2
    let pPooled := (count1 + count2) / (total1 + total2)
    let se := K.sqrt (pPooled * (1 - pPooled) * (1 / total1 + 1 / total2))
    if se = 0 then ⟨false, 1, 0, .none⟩
    else
      let zScore := (p1 - p2) / se
      let pValue := 2 * (1 - normalCDF K |zScore|)
      let isSig : Bool := decide (pValue < alpha)
      ⟨isSig, pValue, zScore, if isSig then (if p2 < p1 then .higher else .lower) else .none⟩

/-- The default significance level 0.05 used at every call site. -/
def defaultAlpha : ℚ := 1/20

/-- The significantly-lower marker exactly as the repository file stores it:
the literal is a doubly-UTF-8-encoded down arrow, so the string the program
pushes is the three characters U+00E2 U+2020 U+201C — never the single
character down arrow. -/
def lowerFlag : String := "â†“"

/-- Flag emitted for one test result. -/
def flagOfTest (t : SignificanceTestResult) : String :=
  if t.isSignificant then (if t.comparisonType = .higher then "*" else lowerFlag) else ""

/-- Per-cell significance flags against the total column
(`performSignificanceTests`).  A JS out-of-range read `baseValues[col]`
yields `undefined` and hence a NaN p-value and an empty flag; the model's
default value 0 reaches the same empty flag through the zero-total branch. -/
def performSignificanceTests (K : JsEnv) (absoluteData : List (List ℤ))
    (baseValues : List ℤ) (alpha : ℚ) : List (List String) :=
  absoluteData.map (fun row =>
    row.enum.map (fun p =>
      if p.1 = 0 then ""
      else
        flagOfTest (zTestForProportions K (p.2 : ℚ) ((baseValues.getD p.1 0 : ℤ) : ℚ)
          ((row.getD 0 0 : ℤ) : ℚ) ((baseValues.getD 0 0 : ℤ) : ℚ) alpha)))

/-- The p-value the approximation produces for `z = 0` is about 1, so a test
with equal proportions is never significant at `alpha = 1/20`
(assuming the environment evaluates `exp 0` to 1, as doubles do). -/
theorem zTest_eq_proportions_not_significant (K : JsEnv) (hexp : K.exp 0 = 1)
    (c1 t1 c2 t2 : ℚ) (heq : c1 / t1 = c2 / t2) :
    (zTestForProportions K c1 t1 c2 t2 defaultAlpha).isSignificant = false := by
  unfold zTestForProportions
  split
  · rfl
  · rename_i hne
    simp only
    split
    · rfl
    · rename_i hse
      simp only [heq, sub_self, zero_div, abs_zero]
      have hcdf : normalCDF K 0 = 0.3989423 * 1.2533137 := by
        unfold normalCDF
        simp only [abs_zero, mul_zero, zero_mul, neg_zero, zero_div, lt_irrefl, if_false]
        rw [hexp]
        norm_num
      rw [hcdf]
      norm_num [defaultAlpha]

/-- When the test reports significance, its direction marker is `higher`
exactly when the first proportion is larger and `lower` exactly when it is
smaller (the equal case is never significant, so the markers are exact). -/
theorem zTest_sig_direction (K : JsEnv) (hexp : K.exp 0 = 1) (c1 t1 c2 t2 : ℚ)
    (hsig : (zTestForProportions K c1 t1 c2 t2 defaultAlpha).isSignificant = true) :
    ((zTestForProportions K c1 t1 c2 t2 defaultAlpha).comparisonType = .higher ↔ c2/t2 < c1/t1)
    ∧ ((zTestForProportions K c1 t1 c2 t2 defaultAlpha).comparisonType = .lower ↔ c1/t1 < c2/t2) := by
  have hne : c1 / t1 ≠ c2 / t2 := by
    intro heq
    rw [zTest_eq_proportions_not_significant K hexp c1 t1 c2 t2 heq] at hsig
    exact Bool.false_ne_true hsig
  by_cases h1 : t1 = 0 ∨ t2 = 0
  · rw [show zTestForProportions K c1 t1 c2 t2 defaultAlpha = ⟨false, 1, 0, .none⟩ from by
      rw [zTestForProportions, if_pos h1]] at hsig
    exact absurd hsig (by simp)
  · by_cases h2 : K.sqrt ((c1 + c2) / (t1 + t2) * (1 - (c1 + c2) / (t1 + t2))
        * (1 / t1 + 1 / t2)) = 0
    · have hz : (zTestForProportions K c1 t1 c2 t2 defaultAlpha).isSignificant = false := by
        simp only [zTestForProportions, if_neg h1]
        rw [if_pos h2]
      rw [hz] at hsig
      exact absurd hsig (by simp)
    · have hdec : decide (2 * (1 - normalCDF K
          |(c1 / t1 - c2 / t2) / K.sqrt ((c1 + c2) / (t1 + t2)
            * (1 - (c1 + c2) / (t1 + t2)) * (1 / t1 + 1 / t2))|) < defaultAlpha) = true := by
        have h := hsig
        simp only [zTestForProportions, if_neg h1, if_neg h2] at h
        exact h
      have hcomp : (zTestForProportions K c1 t1 c2 t2 defaultAlpha).comparisonType
          = if c2 / t2 < c1 / t1 then CompType.higher else CompType.lower := by
        simp only [zTestForProportions, if_neg h1, if_neg h2]
        rw [hdec]
        simp
      rw [hcomp]
      rcases lt_trichotomy (c2 / t2) (c1 / t1) with h | h | h
      · rw [if_pos h]
        refine ⟨⟨fun _ => h, fun _ => rfl⟩, ⟨fun hc => absurd hc (by decide), ?_⟩⟩
        intro hc; exact absurd hc (lt_asymm h)
      · exact absurd h.symm hne
      · rw [if_neg (lt_asymm h)]
        refine ⟨⟨fun hc => absurd hc (by decide), fun hc => absurd hc (lt_asymm h)⟩,
          ⟨fun _ => h, fun _ => rfl⟩⟩

/-- CLAIM C3 backbone: the flag matrix has exactly the input shape, column 0
carries the empty flag, and every other cell carries `"*"` for a significant
higher cell proportion, `lowerFlag` for a significant lower one, and the
empty string otherwise, where the test compares the cell count on base
`baseValues[col]` against the same row's column-0 count on `baseValues[0]`. -/
theorem significance_flags_characterization (K : JsEnv) (hexp : K.exp 0 = 1)
    (abs : List (List ℤ)) (bases : List ℤ) :
    (performSignificanceTests K abs bases defaultAlpha).length = abs.length
    ∧ (∀ i, ((performSignificanceTests K abs bases defaultAlpha).getD i []).length
        = (abs.getD i []).length)
    ∧ (∀ i j, j < (abs.getD i []).length →
        ((performSignificanceTests K abs bases defaultAlpha).getD i []).getD j "?" =
          (if j = 0 then ""
           else
             let c : ℚ := ((abs.getD i []).getD j 0 : ℤ)
             let b : ℚ := (bases.getD j 0 : ℤ)
             let tc : ℚ := ((abs.getD i []).getD 0 0 : ℤ)
             let tb : ℚ := (bases.getD 0 0 : ℤ)
             if ((zTestForProportions K c b tc tb defaultAlpha).isSignificant ∧ tc/tb < c/b) then "*"
             else if ((zTestForProportions K c b tc tb defaultAlpha).isSignificant ∧ c/b < tc/tb) then
               lowerFlag
             else "")) := by
  refine ⟨by simp [performSignificanceTests], ?_, ?_⟩
  · intro i
    unfold performSignificanceTests
    rw [List.getD_eq_getElem?_getD, List.getD_eq_getElem?_getD, List.getElem?_map]
    cases habs : abs[i]? <;> simp [habs, List.enum_length]
  · intro i j hj
    rcases Nat.lt_or_ge i abs.length with hi | hi
    · have hrow : (performSignificanceTests K abs bases defaultAlpha).getD i []
          = (abs[i]).enum.map (fun p =>
              if p.1 = 0 then ""
              else
                flagOfTest (zTestForProportions K (p.2 : ℚ) ((bases.getD p.1 0 : ℤ) : ℚ)
                  (((abs[i]).getD 0 0 : ℤ) : ℚ) ((bases.getD 0 0 : ℤ) : ℚ) defaultAlpha)) := by
        unfold performSignificanceTests
        rw [List.getD_eq_getElem?_getD, List.getElem?_map, List.getElem?_eq_getElem hi]
        rfl
      have habs : abs.getD i [] = abs[i] := by
        rw [List.getD_eq_getElem?_getD, List.getElem?_eq_getElem hi]; rfl
      rw [habs] at hj
      have hj' : j < (abs[i]).enum.length := by simpa [List.enum_length] using hj
      rw [hrow, habs]
      rw [List.getD_eq_getElem?_getD, List.getElem?_map, List.getElem?_eq_getElem hj']
      have henum : ((abs[i]).enum)[j] = (j, (abs[i])[j]) := by
        simp [List.getElem_enum]
      rw [henum]
      simp only [Option.map_some', Option.getD_some]
      by_cases hj0 : j = 0
      · simp [hj0]
      · rw [if_neg hj0, if_neg hj0]
        have hgj : ((abs[i]).getD j 0) = (abs[i])[j] := by
          rw [List.getD_eq_getElem?_getD, List.getElem?_eq_getElem hj]; rfl
        rw [hgj]
        set c : ℚ := (((abs[i])[j] : ℤ) : ℚ)
        set b : ℚ := ((bases.getD j 0 : ℤ) : ℚ)
        set tc : ℚ := (((abs[i]).getD 0 0 : ℤ) : ℚ)
        set tb : ℚ := ((bases.getD 0 0 : ℤ) : ℚ)
        unfold flagOfTest
        by_cases hsig : (zTestForProportions K c b tc tb defaultAlpha).isSignificant = true
        · obtain ⟨hhi, hlo⟩ := zTest_sig_direction K hexp c b tc tb hsig
          rcases hcmp : (zTestForProportions K c b tc tb defaultAlpha).comparisonType with _ | _ | _
          · simp [hsig, hcmp, hhi.mp hcmp]
          · have h1 : ¬ (tc/tb < c/b) := fun hc => by
              have := hhi.mpr hc; rw [hcmp] at this; exact absurd this (by simp)
            simp [hsig, hcmp, h1, hlo.mp hcmp]
          · have h1 : ¬ (tc/tb < c/b) := fun hc => by
              have := hhi.mpr hc; rw [hcmp] at this; exact absurd this (by simp)
            have h2 : ¬ (c/b < tc/tb) := fun hc => by
              have := hlo.mpr hc; rw [hcmp] at this; exact absurd this (by simp)
            have heq : c/b = tc/tb := le_antisymm (not_lt.mp h1) (not_lt.mp h2)
            rw [zTest_eq_proportions_not_significant K hexp c b tc tb heq] at hsig
            exact absurd hsig Bool.false_ne_true
        · replace hsig : (zTestForProportions K c b tc tb defaultAlpha).isSignificant = false :=
            Bool.eq_false_iff.mpr hsig
          simp [hsig]
    · have habs : abs.getD i [] = [] := by
        rw [List.getD_eq_getElem?_getD, List.getElem?_eq_none hi]; rfl
      rw [habs] at hj
      exact absurd hj (Nat.not_lt_zero j)

/-- Helper: every filter whose operator is one of the four unhandled ones
keeps every row. -/
theorem filterKeepsRow_of_unhandled (data : ExcelData) (f : FilterConfig) (row : List String)
    (h : f.op = .isEmpty ∨ f.op = .isNotEmpty ∨ f.op = .startsWith ∨ f.op = .endsWith) :
    filterKeepsRow data f row = true := by
  unfold filterKeepsRow
  rcases h with h | h | h | h <;> rw [h] <;> cases idxOf f.column data.headers <;> rfl

/-- A dataset-level filter pass configured only with the unhandled operators
changes nothing: no row is ever excluded. -/
theorem applyFilters_unhandled_noop (data : ExcelData) (filters : List FilterConfig)
    (h : ∀ f ∈ filters,
      f.op = .isEmpty ∨ f.op = .isNotEmpty ∨ f.op = .startsWith ∨ f.op = .endsWith) :
    (applyFilters data filters).rows = data.rows := by
  unfold applyFilters
  split
  · rfl
  · simp only
    have : ∀ row ∈ data.rows, (filters.all (fun f => filterKeepsRow data f row)) = true := by
      intro row _
      rw [List.all_eq_true]
      intro f hf
      exact filterKeepsRow_of_unhandled data f row (h f hf)
    exact List.filter_eq_self.mpr this

/-- A concrete environment for witnesses: every square root evaluates to 0
and every exponential to 1, which is all the exercised branches consult. -/
def envZero : JsEnv := ⟨fun _ => 0, fun _ => 1, fun _ => 0, fun _ => false⟩

/-- CLAIM C5 (code_bug evidence): on a one-row dataset whose single cell is
the non-blank string `"x"`, an `is_empty` filter on that column keeps the
row (the operator falls into the `default: return true` arm), and likewise
an `is_not_empty` filter keeps a blank-celled row; neither ever excludes a
row, contradicting the documented emptiness semantics. -/
theorem applyFilters_isEmpty_is_noop :
    (applyFilters ⟨["A"], [["x"]]⟩ [⟨"A", .isEmpty, "", none⟩]).rows = [["x"]]
    ∧ (applyFilters ⟨["A"], [[""]]⟩ [⟨"A", .isNotEmpty, "", none⟩]).rows = [[""]] := by
  constructor <;> rfl

/-- Witness exercising the C3 characterization at a concrete matrix: the
row-0 column-1 flag of `performSignificanceTests` on `[[3, 1]]` with bases
`[4, 2]` is the empty string (the environment evaluates the square root to
0, so the test lands in the degenerate not-significant branch). -/
theorem significance_flags_characterization_witness :
    ((performSignificanceTests envZero [[3, 1]] [4, 2] defaultAlpha).getD 0 []).getD 1 "?"
      = "" := by
  have h := (significance_flags_characterization envZero rfl [[3, 1]] [4, 2]).2.2 0 1
    (by decide)
  rw [h]
  norm_num [zTestForProportions, envZero]

/-- An environment whose square root is constantly 1 and whose exponential
vanishes, making the CDF approximation collapse to 1 and any unequal pair of
proportions test significant. -/
def envC3 : JsEnv := ⟨fun _ => 1, fun _ => 0, fun _ => 0, fun _ => false⟩

/-- CLAIM C3 (counterexample): the flag emitted for a significantly-lower
cell is the source file's doubly-encoded three-character mojibake, not the
single down-arrow character the claim states.  A cell with proportion 0
against a total proportion of 1 tests significant-lower, and the pushed
marker differs from `"↓"`. -/
theorem significance_lower_marker_mojibake :
    performSignificanceTests envC3 [[100, 0]] [100, 100] defaultAlpha
      = [["", lowerFlag]]
    ∧ lowerFlag = "â†“" ∧ lowerFlag ≠ "↓" := by
  refine ⟨?_, rfl, by decide⟩
  have hargs : ((0:ℚ)/100 - 100/100) / envC3.sqrt ((0 + 100)/(100 + 100)
      * (1 - (0 + 100)/(100 + 100)) * (1/100 + 1/100)) = -1 := by
    norm_num [envC3]
  have hcdf : normalCDF envC3 (1 : ℚ) = 1 := by
    simp only [normalCDF]
    norm_num [envC3]
  have hz : zTestForProportions envC3 0 100 100 100 defaultAlpha
      = ⟨true, 0, -1, .lower⟩ := by
    simp only [zTestForProportions]
    rw [if_neg (by norm_num : ¬((100:ℚ) = 0 ∨ (100:ℚ) = 0))]
    rw [if_neg (show ¬ envC3.sqrt ((0 + 100)/(100 + 100)
      * (1 - (0 + 100)/(100 + 100)) * (1/100 + 1/100)) = (0:ℚ) from by norm_num [envC3])]
    rw [hargs, abs_neg, abs_one, hcdf]
    norm_num [defaultAlpha]
  show [["", flagOfTest (zTestForProportions envC3 0 100 100 100 defaultAlpha)]]
    = [["", lowerFlag]]
  rw [hz]
  rfl

/-- CLAIM C7: zero denominators are resolved locally.  A percentage whose
base is 0 is emitted as 0 (and rendered `"0%"`), and a z-test call with a
zero total or a zero pooled standard error returns the not-significant
record with p-value 1 and z-score 0. -/
theorem zero_denominator_behavior (K : JsEnv) :
    (∀ count : ℕ, pctNum count 0 = 0 ∧ pctString count 0 = "0%")
    ∧ (∀ c1 t1 c2 t2 alpha : ℚ,
        (t1 = 0 ∨ t2 = 0 ∨ K.sqrt ((c1 + c2) / (t1 + t2)
          * (1 - (c1 + c2) / (t1 + t2)) * (1 / t1 + 1 / t2)) = 0) →
        zTestForProportions K c1 t1 c2 t2 alpha = ⟨false, 1, 0, .none⟩) := by
  constructor
  · intro count
    constructor
    · unfold pctNum; rw [if_neg (lt_irrefl 0)]
    · unfold pctString pctNum; rw [if_neg (lt_irrefl 0)]; rfl
  · intro c1 t1 c2 t2 alpha h
    by_cases h1 : t1 = 0 ∨ t2 = 0
    · unfold zTestForProportions; rw [if_pos h1]
    · rcases h with h | h | h
      · exact absurd (Or.inl h) h1
      · exact absurd (Or.inr h) h1
      · simp only [zTestForProportions, if_neg h1]
        rw [if_pos h]

/-- Witness for the zero-denominator theorem at concrete inputs. -/
theorem zero_denominator_behavior_witness :
    pctString 7 0 = "0%"
    ∧ zTestForProportions envZero 1 0 1 1 defaultAlpha = ⟨false, 1, 0, .none⟩ :=
  ⟨((zero_denominator_behavior envZero).1 7).2,
    (zero_denominator_behavior envZero).2 1 0 1 1 defaultAlpha (Or.inl rfl)⟩

/-! ## StructureDetector: ranking batteries (`rankingProcessor.ts`)

The rank-header regular expressions are small and fixed, so they are
transcribed as direct character-list matchers with the same leftmost-match,
alternation-order and greedy/lazy backtracking behaviour as the JS engine. -/

/-- Is this character `R` or `r`? -/
def isRr (c : Char) : Bool := c == 'R' || c == 'r'

/-- After `k?`, at least one digit (`k?\d+` with backtracking). -/
def optKDigit : List Char → Bool
  | 'k' :: d :: _ => d.isDigit
  | d :: _ => d.isDigit
  | [] => false

/-- After `_?`, at least one digit (`_?\d+` with backtracking). -/
def optUndDigit : List Char → Bool
  | '_' :: d :: _ => d.isDigit
  | d :: _ => d.isDigit
  | [] => false

/-- Token test for `_[Rr]ank?\d+` (pattern 1 of `extractRankQuestionRoot`). -/
def rankTok1 : List Char → Bool
  | '_' :: r :: 'a' :: 'n' :: rest => isRr r && optKDigit rest
  | _ => false

/-- Token test for `_[Rr]\d+` (pattern 2). -/
def rankTok2 : List Char → Bool
  | '_' :: r :: d :: _ => isRr r && d.isDigit
  | _ => false

/-- Token test for `_Rank_?\d+` (pattern 3). -/
def rankTok3 : List Char → Bool
  | '_' :: 'R' :: 'a' :: 'n' :: 'k' :: rest => optUndDigit rest
  | _ => false

/-- Skip whitespace, then require a digit (`\s*\d`). -/
def wsDigit : List Char → Bool
  | c :: rest => if c.isWhitespace then wsDigit rest else c.isDigit
  | [] => false

/-- After at least one whitespace, `[Rr]ank\s*\d+`. -/
def rankTok4Aux : List Char → Bool
  | c :: rest =>
    if c.isWhitespace then rankTok4Aux rest
    else
      match c :: rest with
      | r :: 'a' :: 'n' :: 'k' :: rest2 => isRr r && wsDigit rest2
      | _ => false
  | [] => false

/-- Token test for `\s+[Rr]ank\s*\d+` (pattern 4). -/
def rankTok4 : List Char → Bool
  | c :: rest => c.isWhitespace && rankTok4Aux rest
  | [] => false

/-- Lazy-capture split `^(.+?)tok…`: the shortest non-empty prefix whose
remainder starts with the token; returns that prefix. -/
def findMinSplit (tok : List Char → Bool) : List Char → List Char → Option (List Char)
  | _, [] => none
  | acc, c :: rest =>
    if tok rest then some (acc ++ [c]) else findMinSplit tok (acc ++ [c]) rest

/-- Root extraction for ranking headers (`extractRankQuestionRoot`): the four
patterns in order, then the `split(/[_\s]/)[0]` fallback. -/
def extractRankQuestionRoot (header : String) : String :=
  let cs := header.toList
  match findMinSplit rankTok1 [] cs with
  | some root => (trimChars root).asString
  | none =>
    match findMinSplit rankTok2 [] cs with
    | some root => (trimChars root).asString
    | none =>
      match findMinSplit rankTok3 [] cs with
      | some root => (trimChars root).asString
      | none =>
        match findMinSplit rankTok4 [] cs with
        | some root => (trimChars root).asString
        | none => (cs.takeWhile (fun c => !(c == '_' || c.isWhitespace))).asString

/-- Numeric value of a digit run (JS `parseInt` on a digit string). -/
def digitsToNat (l : List Char) : ℕ :=
  l.foldl (fun a c => 10 * a + (c.toNat - '0'.toNat)) 0

/-- Digit run of length at least one. -/
def digits1 (l : List Char) : Option (List Char) :=
  let d := takeDigits l
  if d.isEmpty then none else some d

/-- The capture of `_?(\d+)` with greedy backtracking over the underscore. -/
def optUndDigits (l : List Char) : Option (List Char) :=
  (match l with
   | '_' :: t => digits1 t
   | _ => none) <|> digits1 l

/-- The capture of `k?_?(\d+)` with greedy backtracking. -/
def optKUndDigits (l : List Char) : Option (List Char) :=
  (match l with
   | 'k' :: t => optUndDigits t
   | _ => none) <|> optUndDigits l

/-- Match of `[Rr]ank?_?(\d+)|[Rr](\d+)` anchored at this position; returns
the captured digit run. -/
def rankDigitsAt : List Char → Option (List Char)
  | r :: rest =>
    if isRr r then
      (match rest with
       | 'a' :: 'n' :: rest2 => optKUndDigits rest2
       | _ => none) <|> digits1 rest
    else none
  | [] => none

/-- Leftmost match of the rank-number regex in `groupColumnsByRank`. -/
def firstRankDigits : List Char → Option (List Char)
  | [] => none
  | c :: rest => rankDigitsAt (c :: rest) <|> firstRankDigits rest

/-- Insertion-ordered grouping, modelling accumulation into a JS object with
non-integer string keys (iteration in insertion order). -/
def groupInsert (acc : List (String × List String)) (key : String) (v : String) :
    List (String × List String) :=
  if acc.any (fun g => g.1 == key) then
    acc.map (fun g => if g.1 == key then (g.1, g.2 ++ [v]) else g)
  else acc ++ [(key, [v])]

/-- Group ranking columns by the rank number in their header and order the
groups by that number (`groupColumnsByRank`); each group is itself sorted. -/
def groupColumnsByRank (columns : List String) : List (List String) :=
  let pairs := columns.filterMap
    (fun col => (firstRankDigits col.toList).map (fun d => (d.asString, col)))
  let grouped := pairs.foldl (fun acc p => groupInsert acc p.1 p.2) []
  (jsSort (fun a b => decide (digitsToNat a.1.toList < digitsToNat b.1.toList)) grouped).map
    (fun g => jsSort jsStrLt g.2)

/-- Backtracking capture of `(?:[Rr]ank?\d*_?)(.+)$` after `[Rr]an` has been
consumed: the `k?`, the digit run and the `_?` give back characters, longest
first, until the capture is non-empty. -/
def alt1Capture (rest2 : List Char) : Option (List Char) :=
  let kOpts : List (List Char) :=
    match rest2 with
    | 'k' :: t => [t, rest2]
    | _ => [rest2]
  (kOpts.flatMap (fun l1 =>
    let ds := takeDigits l1
    ((List.range (ds.length + 1)).map (fun back => l1.drop (ds.length - back))).flatMap
      (fun l2 =>
        match l2 with
        | '_' :: t => [t, l2]
        | _ => [l2]))).find? (fun l => !l.isEmpty)

/-- Backtracking capture of `(?:[Rr]\d+_?)(.+)$` after `[Rr]` has been
consumed: at least one digit must stay consumed. -/
def alt2Capture (rest : List Char) : Option (List Char) :=
  let ds := takeDigits rest
  if ds.isEmpty then none
  else
    (((List.range ds.length).map (fun back => rest.drop (ds.length - back))).flatMap
      (fun l2 =>
        match l2 with
        | '_' :: t => [t, l2]
        | _ => [l2])).find? (fun l => !l.isEmpty)

/-- Match of `(?:[Rr]ank?\d*_?|[Rr]\d+_?)(.+)$` anchored at this position. -/
def optionCaptureAt : List Char → Option (List Char)
  | r :: rest =>
    if isRr r then
      (match rest with
       | 'a' :: 'n' :: rest2 => alt1Capture rest2
       | _ => none) <|> alt2Capture rest
    else none
  | [] => none

/-- Leftmost match of the option-extraction regex. -/
def firstOptionCapture : List Char → Option (List Char)
  | [] => none
  | c :: rest => optionCaptureAt (c :: rest) <|> firstOptionCapture rest

/-- Strip leading/trailing underscores, turn the rest into spaces, trim
(the cleanup chain in `extractOptionsFromRankGroup`). -/
def cleanOption (cs : List Char) : String :=
  let stripped := ((cs.dropWhile (· == '_')).reverse.dropWhile (· == '_')).reverse
  (trimChars (stripped.map (fun c => if c == '_' then ' ' else c))).asString

/-- Option labels of one rank group (`extractOptionsFromRankGroup`):
first-match captures, cleaned, deduplicated, empty labels dropped. -/
def extractOptionsFromRankGroup (rankColumns : List String) : List String :=
  rankColumns.foldl (fun opts col =>
    match firstOptionCapture col.toList with
    | none => opts
    | some cap =>
      let option := cleanOption cap
      if option ≠ "" ∧ ¬ opts.contains option then opts ++ [option] else opts) []

/-- Detected ranking battery (`RankQuestionStructure`; the JS
`columnMapping` record is flattened into the three column-list fields). -/
structure RankQuestionStructure where
  questionName : String
  options : List String
  maxRanks : ℕ
  rank1Columns : List String
  rank2Columns : List String
  rank3Columns : List String
  deriving DecidableEq, Repr

/-- Shape analysis of one root group (`analyzeRankStructure`).  Note that it
assigns `rankGroups[1]` — not `rankGroups[0]` — to `rank1Columns` and counts
`maxRanks = min(3, groups − 1)`, discarding the first rank group as
"ungrouped" although `groupColumnsByRank` only ever emits groups keyed by a
found rank number. -/
def analyzeRankStructure (questionRoot : String) (rankColumns : List String) :
    Option RankQuestionStructure :=
  let sortedColumns := jsSort jsStrLt rankColumns
  let rankGroups := groupColumnsByRank sortedColumns
  if rankGroups.length < 2 then none
  else
    let options := extractOptionsFromRankGroup (rankGroups.headD [])
    if options.length = 0 then none
    else
      if ¬ rankGroups.all (fun g => g.length = options.length) then none
      else
        some
          { questionName := questionRoot
            options := options
            maxRanks := min 3 (rankGroups.length - 1)
            rank1Columns := rankGroups.getD 1 []
            rank2Columns := rankGroups.getD 2 []
            rank3Columns := rankGroups.getD 3 [] }

/-- Ranking battery detection (`detectRankQuestionStructure`): group the
headers typed `ranking` by question root (insertion order), analyze each
group.  The type assignment is an association list, as the JS record. -/
def detectRankQuestionStructure (headers : List String)
    (questionTypes : List (String × String)) : List RankQuestionStructure :=
  let rankingHeaders := headers.filter
    (fun h => (questionTypes.lookup h).getD "" == "ranking")
  let questionGroups := rankingHeaders.foldl
    (fun acc h => groupInsert acc (extractRankQuestionRoot h) h) []
  questionGroups.filterMap (fun g => analyzeRankStructure g.1 g.2)

/-! ## CrossTabEngine data model

Question types are carried as the literal strings of the TS string-literal
union (`'single-choice' | 'multiple-choice' | …`), matching the dynamic
comparisons in the code. -/

/-- A data row: the JS object built by `generateCrossTabs` keyed by header.
Later duplicate headers overwrite earlier ones, so reads take the last
binding; a missing key reads as the empty string. -/
def rowGet (row : List (String × String)) (k : String) : String :=
  (row.reverse.lookup k).getD ""

/-- JS `hasOwnProperty`. -/
def rowHas (row : List (String × String)) (k : String) : Bool :=
  row.any (fun p => p.1 == k)

/-- `String(row[k] || '').trim()`. -/
def cellTrim (row : List (String × String)) (k : String) : String := jsTrim (rowGet row k)

/-- Non-blank cell test used throughout: not `''`, `'null'`, `'undefined'`. -/
def validVal (s : String) : Bool := s != "" && s != "null" && s != "undefined"

/-- Non-blank non-zero rank cell test: additionally excludes `'0'`. -/
def validRank (s : String) : Bool :=
  s != "" && s != "0" && s != "null" && s != "undefined"

/-- `Number(row[k])` on a raw field: a missing property is `undefined`, hence
NaN; a present cell parses as a JS number. -/
def numberOfField (row : List (String × String)) (k : String) : Option ℚ :=
  if rowHas row k then jsNumber (rowGet row k) else none

/-- The per-row JS objects of `generateCrossTabs`: each row is zipped with
the header list, missing cells reading as `''`. -/
def makeDataMap (headers : List String) (rows : List (List String)) :
    List (List (String × String)) :=
  rows.map (fun row => headers.enum.map (fun p => (p.2, row.getD p.1 "")))

/-- `(tableNames[v] || v)`-style defaulting: the empty string is falsy. -/
def jsOrElse (o : Option String) (d : String) : String :=
  match o with
  | some s => if s == "" then d else s
  | none => d

/-- Distinct non-empty trimmed values of one banner column, sorted —
the `[...new Set(...)].sort()` idiom. -/
def bannerValuesOf (dataMap : List (List (String × String))) (bv : String) : List String :=
  jsSort jsStrLt (((dataMap.map (fun r => cellTrim r bv)).filter validVal).eraseDups)

/-- The flattened (banner variable, banner value) pairs, in the column order
the nested `forEach` loops walk them. -/
def bannerPairs (bannerVars : List String) (vals : String → List String) :
    List (String × String) :=
  bannerVars.flatMap (fun bv => (vals bv).map (fun v => (bv, v)))

/-- Span of one banner variable in the composed header row. -/
structure BannerStructure where
  question : String
  answers : List String
  startIndex : ℕ
  endIndex : ℕ
  deriving DecidableEq, Repr

/-- Prefix of `cs` before the first occurrence of `delim`, if any. -/
def prefixBefore (delim : List Char) : List Char → Option (List Char)
  | [] => if delim.isEmpty then some [] else none
  | c :: t =>
    if delim.isPrefixOf (c :: t) then some []
    else (prefixBefore delim t).map (c :: ·)

/-- Question-part extraction (`extractQuestionFromHeader` in
`textProcessing.ts`): first matching delimiter from a fixed list, else the
part before the first parenthesis. -/
def extractQuestionFromHeader (header : String) : String :=
  let cs := header.toList
  let delims := [" - ", " – ", " — ", ": ", " | ", " ; "]
  match delims.findSome? (fun d => (prefixBefore d.toList cs).map
      (fun p => (trimChars p).asString)) with
  | some q => q
  | none =>
    let p := cs.takeWhile (· ≠ '(')
    if p.isEmpty then header else (trimChars p).asString

/-- The delimiter-character class `[\s\-–—:|;]`. -/
def isDelimChar (c : Char) : Bool :=
  c.isWhitespace || c == '-' || c == '–' || c == '—' || c == ':' || c == '|' || c == ';'

/-- Shared-prefix stripping of multi-select option labels
(`removeSharedPrefix` in `textProcessing.ts`). -/
def removeSharedStart (columns : List String) : List String :=
  if columns.length ≤ 1 then columns
  else
    let first := (columns.headD "").toList
    let prefLen := (first.enum.takeWhile
      (fun p => columns.all (fun col => col.toList.get? p.1 == some p.2))).length
    let commonPrefix := ((first.take prefLen).reverse.dropWhile isDelimChar).reverse
    if commonPrefix.length > 3 then
      columns.map (fun col =>
        let cleaned := (trimChars (col.toList.drop commonPrefix.length)).dropWhile isDelimChar
        if cleaned.isEmpty then col else cleaned.asString)
    else columns

/-- Minimum of a number list (`Math.min(...values)`; 0 for an empty list,
which the callers rule out). -/
def listMin : List ℚ → ℚ
  | [] => 0
  | x :: xs => xs.foldl min x

/-- Maximum of a number list. -/
def listMax : List ℚ → ℚ
  | [] => 0
  | x :: xs => xs.foldl max x

/-- Scale-range sniffing (`detectScaleRange` in `textProcessing.ts`). -/
def detectScaleRange (values : List String) : Option (ℚ × ℚ) :=
  let numericValues := values.filterMap jsNumber
  if numericValues.isEmpty then none
  else
    let mn := listMin numericValues
    let mx := listMax numericValues
    let integerRatio : ℚ :=
      ((numericValues.filter ratIsInt).length : ℚ) / (numericValues.length : ℚ)
    if mx - mn ≤ 15 ∧ mx - mn ≥ 1 ∧ integerRatio ≥ 0.8 ∧ mn ≥ 0 ∧ mx ≤ 20 then
      some (mn, mx)
    else none

/-- Mean with empty-list guard (`calculateMean`). -/
def calculateMean (values : List ℚ) : ℚ :=
  if values.length = 0 then 0 else values.sum / (values.length : ℚ)

/-- Median with empty-list guard (`calculateMedian`). -/
def calculateMedian (values : List ℚ) : ℚ :=
  if values.length = 0 then 0
  else
    let sorted := jsSort (fun a b => decide (a < b)) values
    let mid := sorted.length / 2
    if sorted.length % 2 = 0 then ((sorted.getD (mid - 1) 0) + sorted.getD mid 0) / 2
    else sorted.getD mid 0

/-- Population standard deviation (`calculateStandardDeviation`); the square
root comes from the environment. -/
def calculateStandardDeviation (K : JsEnv) (values : List ℚ) : ℚ :=
  if values.length = 0 then 0
  else
    let m := calculateMean values
    K.sqrt ((values.map (fun v => (v - m) ^ 2)).sum / (values.length : ℚ))

/-- Per-banner-column mean/median/standard deviation block
(`calculateStatisticalMeasures`). -/
structure StatisticalMeasures where
  mean : List ℚ
  median : List ℚ
  standardDeviation : List ℚ
  headers : List String
  deriving DecidableEq, Repr

def calculateStatisticalMeasures (K : JsEnv) (dataMap : List (List (String × String)))
    (tableVar : String) (bannerVars : List String) (vals : String → List String) :
    StatisticalMeasures :=
  let headers := "Total" :: bannerVars.flatMap vals
  let totalValues := dataMap.filterMap (fun r => numberOfField r tableVar)
  let groupValues := fun (p : String × String) =>
    (dataMap.filter (fun r => cellTrim r p.1 == p.2)).filterMap
      (fun r => numberOfField r tableVar)
  let columns := totalValues :: (bannerPairs bannerVars vals).map groupValues
  { mean := columns.map calculateMean
    median := columns.map calculateMedian
    standardDeviation := columns.map (calculateStandardDeviation K)
    headers := headers }

/-- Count of rows whose numeric value for `tableVar` is one of
`targetValues`, in the banner column `colIndex` (`calculateBoxCount`):
column 0 is the total, later columns walk the banner pairs in order. -/
def calculateBoxCount (dataMap : List (List (String × String))) (tableVar : String)
    (bannerVars : List String) (vals : String → List String) (colIndex : ℕ)
    (targetValues : List ℚ) : ℕ :=
  if colIndex = 0 then
    (dataMap.filter (fun r =>
      match numberOfField r tableVar with
      | some v => targetValues.contains v
      | none => false)).length
  else
    match (bannerPairs bannerVars vals).get? (colIndex - 1) with
    | some p =>
      (dataMap.filter (fun r =>
        (match numberOfField r tableVar with
         | some v => targetValues.contains v
         | none => false) && cellTrim r p.1 == p.2)).length
    | none => 0

/-- Scale box percentages (`ScaleCalculations`); `scaleMin`/`scaleMax`
flatten the JS `scaleRange` record. -/
structure ScaleCalculations where
  topBox : List (List ℤ)
  bottomBox : List (List ℤ)
  top2Box : List (List ℤ)
  bottom2Box : List (List ℤ)
  top3Box : Option (List (List ℤ))
  bottom3Box : Option (List (List ℤ))
  scaleMin : ℚ
  scaleMax : ℚ
  deriving DecidableEq, Repr

def calculateEnhancedScaleBoxes (dataMap : List (List (String × String)))
    (tableVar : String) (bannerVars : List String) (vals : String → List String)
    (scaleRange : ℚ × ℚ) (baseValues : List ℕ) : ScaleCalculations :=
  let mn := scaleRange.1
  let mx := scaleRange.2
  let box := fun (targets : List ℚ) (colIndex : ℕ) =>
    [pctNum (calculateBoxCount dataMap tableVar bannerVars vals colIndex targets)
      (baseValues.getD colIndex 0)]
  let cols := List.range baseValues.length
  { topBox := cols.map (box [mx])
    bottomBox := cols.map (box [mn])
    top2Box := cols.map (box [mx - 1, mx])
    bottom2Box := cols.map (box [mn, mn + 1])
    top3Box := if mx - mn + 1 ≥ 6 then some (cols.map (box [mx - 2, mx - 1, mx])) else none
    bottom3Box := if mx - mn + 1 ≥ 6 then some (cols.map (box [mn, mn + 1, mn + 2])) else none
    scaleMin := mn
    scaleMax := mx }

/-- The object `calculateRankingBoxes` actually returns (its fields do not
match the `RankingCalculations` interface it is declared with). -/
structure RankingBoxes where
  rank1 : List (List ℤ)
  rank2 : List (List ℤ)
  rank3 : List (List ℤ)
  rank1Plus2 : List (List ℤ)
  rank1Plus2Plus3 : List (List ℤ)
  deriving DecidableEq, Repr

def calculateRankingBoxes (dataMap : List (List (String × String))) (tableVar : String)
    (bannerVars : List String) (vals : String → List String) (baseValues : List ℕ) :
    RankingBoxes :=
  let box := fun (targets : List ℚ) (colIndex : ℕ) =>
    [pctNum (calculateBoxCount dataMap tableVar bannerVars vals colIndex targets)
      (baseValues.getD colIndex 0)]
  let cols := List.range baseValues.length
  { rank1 := cols.map (box [1])
    rank2 := cols.map (box [2])
    rank3 := cols.map (box [3])
    rank1Plus2 := cols.map (box [1, 2])
    rank1Plus2Plus3 := cols.map (box [1, 2, 3]) }

/-- Ranking view matrices of one battery (`RankingCalculations`). -/
structure RankingCalculations where
  rank1Only : List (List ℤ)
  rank2Only : List (List ℤ)
  rank3Only : List (List ℤ)
  rank1Plus2 : List (List ℤ)
  rank1Plus2Plus3 : List (List ℤ)
  rankOptions : List String
  maxRanks : ℕ
  deriving DecidableEq, Repr

/-- Cross-tab slice attached to one extracted theme. -/
structure OpenEndedCrossTabData where
  absolute : List ℤ
  percentage : List String
  headers : List String
  deriving DecidableEq, Repr

/-- One open-ended theme row (`OpenEndedTheme`). -/
structure OpenEndedTheme where
  theme : String
  count : ℕ
  percentage : ℤ
  samples : List String
  crossTabData : Option OpenEndedCrossTabData
  deriving DecidableEq, Repr

/-- The atomic output unit (`CrossTabResult`).  `rankingBoxes` carries the
object `calculateRankingBoxes` really returns; in the JS it is stored in the
same dynamically-typed `rankingCalculations` slot. -/
structure CrossTabResult where
  name : String
  displayName : String
  absolute : List (List ℤ)
  percentage : List (List String)
  headers : List String
  rowLabels : List String
  bannerQuestion : String
  bannerAnswers : List String
  questionType : String
  baseValues : List ℕ
  validationErrors : List String
  significanceFlags : List (List String)
  bannerStructure : List BannerStructure
  scaleCalculations : Option ScaleCalculations := none
  rankingCalculations : Option RankingCalculations := none
  rankingBoxes : Option RankingBoxes := none
  statisticalMeasures : Option StatisticalMeasures := none
  openEndedThemes : Option (List OpenEndedTheme) := none
  deriving DecidableEq, Repr

/-- Banner spans, walked left to right starting after the Total column
(`createBannerStructure`). -/
def createBannerStructure (bannerVars : List String)
    (dataMap : List (List (String × String))) : List BannerStructure :=
  (bannerVars.foldl (fun (acc : List BannerStructure × ℕ) bv =>
    let answers := bannerValuesOf dataMap bv
    (acc.1 ++ [{ question := extractQuestionFromHeader bv
                 answers := answers
                 startIndex := acc.2
                 endIndex := acc.2 + answers.length - 1 }],
     acc.2 + answers.length)) ([], 1)).1

/-- Count of rows holding a non-blank non-zero value in a rank column,
within banner column `colIndex` (`calculateRankCount`); a missing column
name contributes 0. -/
def calculateRankCount (dataMap : List (List (String × String)))
    (columnName : Option String) (bannerVars : List String)
    (vals : String → List String) (colIndex : ℕ) : ℕ :=
  match columnName with
  | none => 0
  | some col =>
    if col == "" then 0   -- `if (!columnName) return 0` also catches ''
    else if colIndex = 0 then
      (dataMap.filter (fun r => validRank (cellTrim r col))).length
    else
      match (bannerPairs bannerVars vals).get? (colIndex - 1) with
      | some p =>
        (dataMap.filter (fun r =>
          validRank (cellTrim r col) && cellTrim r p.1 == p.2)).length
      | none => 0

/-- Per-option rank percentages for every banner column
(`createRankingCrossTab` in `rankingProcessor.ts`). -/
def createRankingCrossTab (dataMap : List (List (String × String)))
    (rankStructure : RankQuestionStructure) (bannerVars : List String)
    (vals : String → List String) (baseValues : List ℕ) : RankingCalculations :=
  let cols := List.range baseValues.length
  let countAt := fun (colList : List String) (optionIndex colIndex : ℕ) =>
    calculateRankCount dataMap (colList.get? optionIndex) bannerVars vals colIndex
  let idx := List.range rankStructure.options.length
  { rank1Only := idx.map (fun oi => cols.map (fun ci =>
      pctNum (countAt rankStructure.rank1Columns oi ci) (baseValues.getD ci 0)))
    rank2Only := idx.map (fun oi => cols.map (fun ci =>
      pctNum (countAt rankStructure.rank2Columns oi ci) (baseValues.getD ci 0)))
    rank3Only := idx.map (fun oi => cols.map (fun ci =>
      pctNum (countAt rankStructure.rank3Columns oi ci) (baseValues.getD ci 0)))
    rank1Plus2 := idx.map (fun oi => cols.map (fun ci =>
      pctNum (countAt rankStructure.rank1Columns oi ci
        + countAt rankStructure.rank2Columns oi ci) (baseValues.getD ci 0)))
    rank1Plus2Plus3 := idx.map (fun oi => cols.map (fun ci =>
      pctNum (countAt rankStructure.rank1Columns oi ci
        + countAt rankStructure.rank2Columns oi ci
        + countAt rankStructure.rank3Columns oi ci) (baseValues.getD ci 0)))
    rankOptions := rankStructure.options
    maxRanks := rankStructure.maxRanks }

/-- The multi-select "selected" test (`isSelected`). -/
def isSelected (s : String) : Bool :=
  let c := jsLower (jsTrim s)
  c != "" && c != "0" && c != "no" && c != "false" && c != "n/a" && c != "na"
    && c != "null" && c != "undefined"

/-- The theme keyword table of `extractThemesWithResponses`. -/
def themeKeywordTable : List (String × List String) :=
  [("Price/Cost/Value",
    ["price", "cost", "cheap", "expensive", "affordable", "budget", "money", "value",
     "worth", "pricing", "fee", "charge", "rate", "economical", "inexpensive"]),
   ("Quality/Performance",
    ["quality", "good", "bad", "excellent", "poor", "high-quality", "low-quality",
     "performance", "reliable", "durable", "effective", "efficient", "superior"]),
   ("Customer Service",
    ["service", "staff", "customer", "help", "support", "friendly", "rude",
     "assistance", "representative", "team", "personnel", "helpful", "professional"]),
   ("Location/Accessibility",
    ["location", "close", "near", "far", "convenient", "accessible", "parking",
     "distance", "proximity", "nearby", "remote", "central", "easy to find"]),
   ("Product Features",
    ["product", "feature", "function", "design", "style", "variety", "selection",
     "options", "functionality", "capability", "specification", "attribute"]),
   ("User Experience",
    ["experience", "feel", "atmosphere", "environment", "comfortable", "pleasant",
     "enjoyable", "satisfaction", "impression", "usability", "interface"]),
   ("Speed/Efficiency",
    ["time", "fast", "slow", "quick", "wait", "delay", "speed", "efficient",
     "prompt", "rapid", "immediate", "timely", "responsive"]),
   ("Recommendation/Loyalty",
    ["recommend", "suggest", "refer", "tell", "friends", "family",
     "loyalty", "trust", "confidence", "satisfaction", "repeat"]),
   ("Communication",
    ["communication", "information", "clear", "confusing", "explanation",
     "instructions", "guidance", "feedback", "response", "contact"]),
   ("Convenience/Ease",
    ["convenient", "easy", "simple", "straightforward", "hassle",
     "complicated", "difficult", "user-friendly", "intuitive"])]

/-- Accumulated data of one theme during extraction. -/
structure ThemeData where
  theme : String
  count : ℕ
  actualResponses : List String
  responsesByBanner : List (String × List String)
  deriving DecidableEq, Repr

/-- Record one matching response on a theme: bump the count, keep the
verbatim text, and file it under the row's banner value for every banner
variable whose value is non-blank and known. -/
def themeBump (t : ThemeData) (response : String) (row : List (String × String))
    (bannerVars : List String) (vals : String → List String) : ThemeData :=
  { t with
    count := t.count + 1
    actualResponses := t.actualResponses ++ [response]
    responsesByBanner := bannerVars.foldl (fun rb bv =>
      let bval := cellTrim row bv
      if bval != "" && (vals bv).contains bval then
        rb.map (fun e => if e.1 == bval then (e.1, e.2 ++ [response]) else e)
      else rb) t.responsesByBanner }

/-- Keyword theming over the data rows (`extractThemesWithResponses`): each
valid response goes to the theme with the most keyword hits (first theme on
ties, `Other` on zero hits); empty themes are dropped and the rest is
sorted by descending count. -/
def extractThemesWithResponses (responses : List String)
    (dataMap : List (List (String × String))) (tableVar : String)
    (bannerVars : List String) (vals : String → List String) : List ThemeData :=
  let validResponses := responses.filter (fun r => !(jsTrim r).toList.isEmpty)
  if validResponses.isEmpty then []
  else
    let initBanner := ((bannerVars.flatMap vals).eraseDups).map
      (fun v => (v, ([] : List String)))
    let initThemes := themeKeywordTable.map (fun tk => ThemeData.mk tk.1 0 [] initBanner)
      ++ [ThemeData.mk "Other" 0 [] initBanner]
    let final := dataMap.foldl (fun themes row =>
      let response := cellTrim row tableVar
      if ¬ validVal response then themes
      else
        let lower := jsLower response
        let best := themeKeywordTable.foldl (fun (acc : String × ℕ) tk =>
          let hits := (tk.2.filter (fun kw => strContains lower kw)).length
          if hits > acc.2 then (tk.1, hits) else acc) ("", 0)
        let key := if best.2 > 0 then best.1 else "Other"
        themes.map (fun t =>
          if t.theme == key then themeBump t response row bannerVars vals else t))
      initThemes
    jsSort (fun a b => decide (b.count < a.count)) (final.filter (fun t => t.count > 0))

/-! ## The five aggregation paths of the CrossTabEngine

Each creator builds its rows as `total :: …banner pairs…`; the percentage
loops in the JS read `baseValues[colIndex]` and `absRow[colIndex]` back by a
running index that walks exactly the same (banner variable, banner value)
pairs in the same order, so they are rendered here by a map over the same
pair list. -/

/-- Open-ended aggregation (`createOpenEndedCrossTab`). -/
def createOpenEndedCrossTab (K : JsEnv) (dataMap : List (List (String × String)))
    (tableVar : String) (bannerVars : List String) (displayName : String) :
    Option CrossTabResult :=
  let allResponses := (dataMap.map (fun r => cellTrim r tableVar)).filter validVal
  if allResponses.isEmpty then none
  else
    let bannerStructure := createBannerStructure bannerVars dataMap
    let vals := fun bv => bannerValuesOf dataMap bv
    let allBannerHeaders := "Total" :: bannerVars.flatMap vals
    let totalBase := allResponses.length
    let pairs := bannerPairs bannerVars vals
    let baseFn := fun (p : String × String) =>
      (dataMap.filter (fun r =>
        validVal (cellTrim r tableVar) && cellTrim r p.1 == p.2)).length
    let baseValues := totalBase :: pairs.map baseFn
    let themesWithResponses :=
      extractThemesWithResponses allResponses dataMap tableVar bannerVars vals
    if themesWithResponses.isEmpty then none
    else
      let themeCount := fun (td : ThemeData) (p : String × String) =>
        ((td.responsesByBanner.lookup p.2).getD []).length
      let absolute : List (List ℤ) :=
        baseValues.map Int.ofNat
        :: List.replicate baseValues.length (0 : ℤ)
        :: themesWithResponses.map (fun td =>
            (td.count : ℤ) :: pairs.map (fun p => (themeCount td p : ℤ)))
      let percentage : List (List String) :=
        baseValues.map (fun _ => "100%")
        :: List.replicate baseValues.length ""
        :: themesWithResponses.map (fun td =>
            pctString td.count totalBase
              :: pairs.map (fun p => pctString (themeCount td p) (baseFn p)))
      let rowLabels := "FULL RESPONSES" :: "--- THEMATIC ANALYSIS ---"
        :: themesWithResponses.map (·.theme)
      let openEndedThemes : List OpenEndedTheme :=
        { theme := "Full Responses"
          count := totalBase
          percentage := 100
          samples := allResponses.take 10
          crossTabData := some
            { absolute := baseValues.map Int.ofNat
              percentage := baseValues.map (fun _ => "100%")
              headers := allBannerHeaders } }
        :: themesWithResponses.map (fun td =>
            { theme := td.theme
              count := td.count
              percentage := jsRound ((td.count : ℚ) / (totalBase : ℚ) * 100)
              samples := td.actualResponses.take 5
              crossTabData := some
                { absolute := (td.count : ℤ) :: pairs.map (fun p => (themeCount td p : ℤ))
                  percentage := pctString td.count totalBase
                    :: pairs.map (fun p => pctString (themeCount td p) (baseFn p))
                  headers := allBannerHeaders } })
      some
        { name := tableVar ++ "_themes_by_" ++ String.intercalate "_" bannerVars
          displayName := displayName
          absolute := absolute
          percentage := percentage
          headers := allBannerHeaders
          rowLabels := rowLabels
          bannerQuestion := String.intercalate " | " bannerVars
          bannerAnswers := allBannerHeaders.drop 1
          questionType := "open-ended"
          baseValues := baseValues
          validationErrors := []
          significanceFlags :=
            performSignificanceTests K absolute (baseValues.map Int.ofNat) defaultAlpha
          bannerStructure := bannerStructure
          openEndedThemes := some openEndedThemes }

/-- Regular single-column aggregation (`createRegularCrossTab`); `open-ended`
delegates, an empty category list aborts with a validation error. -/
def createRegularCrossTab (K : JsEnv) (dataMap : List (List (String × String)))
    (tableVar : String) (bannerVars : List String) (questionType : String)
    (displayName : String) : Option CrossTabResult :=
  if questionType == "open-ended" then
    createOpenEndedCrossTab K dataMap tableVar bannerVars displayName
  else
    let tableValues := jsSort jsStrLt
      (((dataMap.map (fun r => cellTrim r tableVar)).filter validVal).eraseDups)
    if tableValues.isEmpty then none
    else
      let bannerStructure := createBannerStructure bannerVars dataMap
      let vals := fun bv => bannerValuesOf dataMap bv
      let allBannerHeaders := "Total" :: bannerVars.flatMap vals
      let totalBase := (dataMap.filter (fun r => validVal (cellTrim r tableVar))).length
      let pairs := bannerPairs bannerVars vals
      let baseFn := fun (p : String × String) =>
        (dataMap.filter (fun r =>
          validVal (cellTrim r tableVar) && cellTrim r p.1 == p.2)).length
      let baseValues := totalBase :: pairs.map baseFn
      let countT := fun (tv : String) =>
        (dataMap.filter (fun r => cellTrim r tableVar == tv)).length
      let countTB := fun (tv : String) (p : String × String) =>
        (dataMap.filter (fun r =>
          cellTrim r tableVar == tv && cellTrim r p.1 == p.2)).length
      let absolute : List (List ℤ) :=
        tableValues.map (fun tv => (countT tv : ℤ) :: pairs.map (fun p => (countTB tv p : ℤ)))
        ++ [baseValues.map Int.ofNat]
      let percentage : List (List String) :=
        tableValues.map (fun tv =>
          pctString (countT tv) totalBase
            :: pairs.map (fun p => pctString (countTB tv p) (baseFn p)))
        ++ [baseValues.map (fun _ => "100%")]
      let statisticalMeasures :=
        if questionType == "numeric" || questionType == "scale" then
          some (calculateStatisticalMeasures K dataMap tableVar bannerVars vals)
        else none
      let scaleCalculations :=
        if questionType == "scale" then
          let allValues := dataMap.filterMap (fun r =>
            if rowHas r tableVar then
              (if rowGet r tableVar ≠ "" then some (rowGet r tableVar) else none)
            else none)
          (detectScaleRange allValues).map (fun sr =>
            calculateEnhancedScaleBoxes dataMap tableVar bannerVars vals sr baseValues)
        else none
      let rankingBoxes :=
        if questionType == "ranking" then
          some (calculateRankingBoxes dataMap tableVar bannerVars vals baseValues)
        else none
      let colSums : List (String × ℤ) :=
        ("Total", (tableValues.map (fun tv => pctNum (countT tv) totalBase)).sum)
        :: pairs.map (fun p =>
            (p.2, (tableValues.map (fun tv => pctNum (countTB tv p) (baseFn p))).sum))
      let validationErrors :=
        if questionType == "single-choice" || questionType == "binary" then
          colSums.filterMap (fun cSum =>
            if 5 < (cSum.2 - 100).natAbs then
              some ("Column \"" ++ cSum.1 ++ "\" percentages sum to "
                ++ toString cSum.2
                ++ "% instead of 100%. This may indicate data quality issues.")
            else none)
        else []
      some
        { name := tableVar ++ "_by_" ++ String.intercalate "_" bannerVars
          displayName := displayName
          absolute := absolute
          percentage := percentage
          headers := allBannerHeaders
          rowLabels := tableValues ++ ["Total"]
          bannerQuestion := String.intercalate " | " bannerVars
          bannerAnswers := allBannerHeaders.drop 1
          questionType := questionType
          baseValues := baseValues
          validationErrors := validationErrors
          significanceFlags :=
            performSignificanceTests K absolute (baseValues.map Int.ofNat) defaultAlpha
          bannerStructure := bannerStructure
          scaleCalculations := scaleCalculations
          rankingBoxes := rankingBoxes
          statisticalMeasures := statisticalMeasures }

/-- Multi-select battery aggregation (`createMultiSelectCrossTab`).  The
option-row loop reads `dataMap[0].hasOwnProperty(col)`, which on an empty
row set dereferences `undefined` and throws; that TypeError is the
`Except.error` case. -/
def createMultiSelectCrossTab (K : JsEnv) (dataMap : List (List (String × String)))
    (groupName : String) (bannerVars : List String) (multiSelectCols : List String)
    (displayName : String) : Except String CrossTabResult :=
  if ¬ multiSelectCols.isEmpty ∧ dataMap.isEmpty then
    .error "TypeError: Cannot read properties of undefined (reading 'hasOwnProperty')"
  else
    let bannerStructure := createBannerStructure bannerVars dataMap
    let vals := fun bv => bannerValuesOf dataMap bv
    let allBannerHeaders := "Total" :: bannerVars.flatMap vals
    let pairs := bannerPairs bannerVars vals
    let totalBase :=
      (dataMap.filter (fun r => multiSelectCols.any (fun col => isSelected (rowGet r col)))).length
    let baseFn := fun (p : String × String) =>
      (dataMap.filter (fun r =>
        cellTrim r p.1 == p.2
          && multiSelectCols.any (fun col => isSelected (rowGet r col)))).length
    let baseValues := totalBase :: pairs.map baseFn
    let cleanedOptions := removeSharedStart multiSelectCols
    let included := multiSelectCols.enum.filter (fun p => rowHas (dataMap.headD []) p.2)
    let countSel := fun (col : String) =>
      (dataMap.filter (fun r => isSelected (rowGet r col))).length
    let countSelB := fun (col : String) (p : String × String) =>
      (dataMap.filter (fun r =>
        isSelected (rowGet r col) && cellTrim r p.1 == p.2)).length
    let absolute : List (List ℤ) :=
      included.map (fun pc =>
        (countSel pc.2 : ℤ) :: pairs.map (fun p => (countSelB pc.2 p : ℤ)))
      ++ [baseValues.map Int.ofNat]
    let percentage : List (List String) :=
      included.map (fun pc =>
        pctString (countSel pc.2) totalBase
          :: pairs.map (fun p => pctString (countSelB pc.2 p) (baseFn p)))
      ++ [baseValues.map (fun _ => "100%")]
    let rowLabels := included.map (fun pc => cleanedOptions.getD pc.1 "")
      ++ ["NET: Any Response"]
    .ok
      { name := groupName ++ "_by_" ++ String.intercalate "_" bannerVars
        displayName := displayName
        absolute := absolute
        percentage := percentage
        headers := allBannerHeaders
        rowLabels := rowLabels
        bannerQuestion := String.intercalate " | " bannerVars
        bannerAnswers := allBannerHeaders.drop 1
        questionType := "multiple-choice"
        baseValues := baseValues
        validationErrors :=
          if totalBase = 0 then
            ["No respondents found who answered any option in multi-select group: "
              ++ groupName]
          else []
        significanceFlags :=
          performSignificanceTests K absolute (baseValues.map Int.ofNat) defaultAlpha
        bannerStructure := bannerStructure }

/-- Ranking battery aggregation (`createRankQuestionCrossTab`): five labeled
sections of option rows, absolute cells back-derived from the rounded
percentages. -/
def createRankQuestionCrossTab (K : JsEnv) (dataMap : List (List (String × String)))
    (questionName : String) (bannerVars : List String)
    (rankStructure : RankQuestionStructure) (displayName : String) : CrossTabResult :=
  let bannerStructure := createBannerStructure bannerVars dataMap
  let vals := fun bv => bannerValuesOf dataMap bv
  let allBannerHeaders := "Total" :: bannerVars.flatMap vals
  let pairs := bannerPairs bannerVars vals
  let allRankColumns := (rankStructure.rank1Columns ++ rankStructure.rank2Columns
    ++ rankStructure.rank3Columns).filter (· != "")
  let hasAnyRanking := fun (r : List (String × String)) =>
    allRankColumns.any (fun col => validRank (cellTrim r col))
  let totalBase := (dataMap.filter hasAnyRanking).length
  let baseFn := fun (p : String × String) =>
    (dataMap.filter (fun r => cellTrim r p.1 == p.2 && hasAnyRanking r)).length
  let baseValues := totalBase :: pairs.map baseFn
  let rankingCalculations :=
    createRankingCrossTab dataMap rankStructure bannerVars vals baseValues
  let sections : List (String × List (List ℤ)) :=
    [("--- RANK 1 ONLY ---", rankingCalculations.rank1Only),
     ("--- RANK 2 ONLY ---", rankingCalculations.rank2Only),
     ("--- RANK 3 ONLY ---", rankingCalculations.rank3Only),
     ("--- RANK 1 + 2 ---", rankingCalculations.rank1Plus2),
     ("--- RANK 1 + 2 + 3 ---", rankingCalculations.rank1Plus2Plus3)]
  let optionLabel := fun (i : ℕ) =>
    let o := rankingCalculations.rankOptions.getD i ""
    if o == "" then "Option " ++ toString (i + 1) else o
  let absolute : List (List ℤ) := sections.flatMap (fun sec =>
    if sec.2.isEmpty then []
    else
      List.replicate baseValues.length (0 : ℤ)
      :: sec.2.map (fun row => row.enum.map (fun p =>
          jsRound ((p.2 * (baseValues.getD p.1 0 : ℤ) : ℚ) / 100))))
  let percentage : List (List String) := sections.flatMap (fun sec =>
    if sec.2.isEmpty then []
    else
      List.replicate baseValues.length ""
      :: sec.2.map (fun row => row.map (fun pct => toString pct ++ "%")))
  let rowLabels : List String := sections.flatMap (fun sec =>
    if sec.2.isEmpty then []
    else sec.1 :: (List.range sec.2.length).map optionLabel)
  { name := questionName ++ "_ranking_by_" ++ String.intercalate "_" bannerVars
    displayName := displayName
    absolute := absolute
    percentage := percentage
    headers := allBannerHeaders
    rowLabels := rowLabels
    bannerQuestion := String.intercalate " | " bannerVars
    bannerAnswers := allBannerHeaders.drop 1
    questionType := "ranking"
    baseValues := baseValues
    validationErrors :=
      if totalBase = 0 then
        ["No respondents found who provided rankings for: " ++ questionName]
      else []
    significanceFlags :=
      performSignificanceTests K absolute (baseValues.map Int.ofNat) defaultAlpha
    bannerStructure := bannerStructure
    rankingCalculations := some rankingCalculations }

/-- The stubbed custom-variable path (`createCustomVariableCrossTab`):
always returns no result.  Only the key set of the custom-variable mapping
matters to the engine, since this stub ignores the definition. -/
def createCustomVariableCrossTab (_dataMap : List (List (String × String)))
    (_variableName : String) (_bannerVars : List String) (_displayName : String) :
    Option CrossTabResult :=
  none

/-- The declarative report configuration (`CrossTabConfig`); the nested
filter trees are stored but never read by `generateCrossTabs`, so they are
omitted here. -/
structure CrossTabConfig where
  tableVariables : List String
  bannerVariables : List String
  multiSelectGroups : List (String × List String)
  questionTypes : List (String × String)
  tableNames : List (String × String)
  filters : List FilterConfig
  customVariables : List String
  deriving Repr

/-- The orchestrator (`generateCrossTabs`): filter, build the row objects,
detect ranking batteries, then dispatch each table variable to its
aggregation path; a thrown TypeError aborts the whole run. -/
def generateCrossTabs (K : JsEnv) (data : ExcelData) (config : CrossTabConfig) :
    Except String (List CrossTabResult) :=
  let filteredData := applyFilters data config.filters
  let dataMap := makeDataMap data.headers filteredData.rows
  let rankQuestionStructures :=
    detectRankQuestionStructure data.headers config.questionTypes
  config.tableVariables.foldlM (fun results tableVar =>
    let displayName := jsOrElse (config.tableNames.lookup tableVar) tableVar
    match config.multiSelectGroups.lookup tableVar with
    | some multiSelectCols =>
      if multiSelectCols.isEmpty then .ok results
      else
        (createMultiSelectCrossTab K dataMap tableVar config.bannerVariables
          multiSelectCols displayName).map (fun r => results ++ [r])
    | none =>
      if config.customVariables.contains tableVar then
        .ok (results ++
          (createCustomVariableCrossTab dataMap tableVar config.bannerVariables
            displayName).toList)
      else
        match rankQuestionStructures.find? (fun r => r.questionName == tableVar) with
        | some rankStructure =>
          .ok (results ++ [createRankQuestionCrossTab K dataMap tableVar
            config.bannerVariables rankStructure displayName])
        | none =>
          if data.headers.contains tableVar then
            let questionType :=
              jsOrElse (config.questionTypes.lookup tableVar) "single-choice"
            .ok (results ++
              (createRegularCrossTab K dataMap tableVar config.bannerVariables
                questionType displayName).toList)
          else .ok results) []

/-! ## Shape invariant (CLAIM C2) -/

/-- The dimensional invariant of one result: percentage, flags and row
labels have as many rows as the absolute matrix; the header row, the base
vector and every row of all three matrices share one width. -/
def shapeOk (r : CrossTabResult) : Prop :=
  r.percentage.length = r.absolute.length
  ∧ r.significanceFlags.length = r.absolute.length
  ∧ r.rowLabels.length = r.absolute.length
  ∧ r.baseValues.length = r.headers.length
  ∧ (∀ row ∈ r.absolute, row.length = r.headers.length)
  ∧ (∀ row ∈ r.percentage, row.length = r.headers.length)
  ∧ (∀ row ∈ r.significanceFlags, row.length = r.headers.length)

theorem length_bannerPairs (bannerVars : List String) (vals : String → List String) :
    (bannerPairs bannerVars vals).length = (bannerVars.flatMap vals).length := by
  unfold bannerPairs
  induction bannerVars with
  | nil => rfl
  | cons bv rest ih => simp [List.flatMap_cons, ih]

theorem performSignificanceTests_length (K : JsEnv) (abs : List (List ℤ))
    (bases : List ℤ) (alpha : ℚ) :
    (performSignificanceTests K abs bases alpha).length = abs.length := by
  simp [performSignificanceTests]

theorem performSignificanceTests_row_length (K : JsEnv) (abs : List (List ℤ))
    (bases : List ℤ) (alpha : ℚ) :
    ∀ row ∈ performSignificanceTests K abs bases alpha,
      ∃ row₀ ∈ abs, row.length = row₀.length := by
  intro row hrow
  unfold performSignificanceTests at hrow
  rw [List.mem_map] at hrow
  obtain ⟨row₀, h₀, heq⟩ := hrow
  exact ⟨row₀, h₀, by simp [← heq, List.enum_length]⟩

theorem createOpenEndedCrossTab_shape (K : JsEnv) (dataMap : List (List (String × String)))
    (tableVar : String) (bannerVars : List String) (displayName : String)
    (r : CrossTabResult)
    (h : createOpenEndedCrossTab K dataMap tableVar bannerVars displayName = some r) :
    shapeOk r := by
  simp only [createOpenEndedCrossTab] at h
  split at h
  · exact absurd h (by simp)
  · split at h
    · exact absurd h (by simp)
    · rw [Option.some.injEq] at h
      subst h
      refine ⟨?_, ?_, ?_, ?_, ?_, ?_, ?_⟩
      · simp
      · rw [performSignificanceTests_length]
      · simp
      · simp [length_bannerPairs]
      · intro row hrow
        rw [List.mem_cons, List.mem_cons, List.mem_map] at hrow
        rcases hrow with h1 | h1 | ⟨td, _, heq⟩
        · subst h1; simp [length_bannerPairs]
        · subst h1; simp [length_bannerPairs]
        · simp [← heq, length_bannerPairs]
      · intro row hrow
        rw [List.mem_cons, List.mem_cons, List.mem_map] at hrow
        rcases hrow with h1 | h1 | ⟨td, _, heq⟩
        · subst h1; simp [length_bannerPairs]
        · subst h1; simp [length_bannerPairs]
        · simp [← heq, length_bannerPairs]
      · intro row hrow
        obtain ⟨row₀, h₀, heq⟩ := performSignificanceTests_row_length _ _ _ _ row hrow
        rw [heq]
        rw [List.mem_cons, List.mem_cons, List.mem_map] at h₀
        rcases h₀ with h1 | h1 | ⟨td, _, heq2⟩
        · subst h1; simp [length_bannerPairs]
        · subst h1; simp [length_bannerPairs]
        · simp [← heq2, length_bannerPairs]

theorem createRegularCrossTab_shape (K : JsEnv) (dataMap : List (List (String × String)))
    (tableVar : String) (bannerVars : List String) (questionType : String)
    (displayName : String) (r : CrossTabResult)
    (h : createRegularCrossTab K dataMap tableVar bannerVars questionType displayName
      = some r) :
    shapeOk r := by
  simp only [createRegularCrossTab] at h
  split at h
  · exact createOpenEndedCrossTab_shape _ _ _ _ _ _ h
  · split at h
    · exact absurd h (by simp)
    · rw [Option.some.injEq] at h
      subst h
      refine ⟨?_, ?_, ?_, ?_, ?_, ?_, ?_⟩
      · simp
      · rw [performSignificanceTests_length]
      · simp
      · simp [length_bannerPairs]
      · intro row hrow
        rw [List.mem_append, List.mem_map, List.mem_singleton] at hrow
        rcases hrow with ⟨tv, _, heq⟩ | h1
        · simp [← heq, length_bannerPairs]
        · subst h1; simp [length_bannerPairs]
      · intro row hrow
        rw [List.mem_append, List.mem_map, List.mem_singleton] at hrow
        rcases hrow with ⟨tv, _, heq⟩ | h1
        · simp [← heq, length_bannerPairs]
        · subst h1; simp [length_bannerPairs]
      · intro row hrow
        obtain ⟨row₀, h₀, heq⟩ := performSignificanceTests_row_length _ _ _ _ row hrow
        rw [heq]
        rw [List.mem_append, List.mem_map, List.mem_singleton] at h₀
        rcases h₀ with ⟨tv, _, heq2⟩ | h1
        · simp [← heq2, length_bannerPairs]
        · subst h1; simp [length_bannerPairs]

theorem createMultiSelectCrossTab_shape (K : JsEnv)
    (dataMap : List (List (String × String))) (groupName : String)
    (bannerVars : List String) (multiSelectCols : List String) (displayName : String)
    (r : CrossTabResult)
    (h : createMultiSelectCrossTab K dataMap groupName bannerVars multiSelectCols
      displayName = .ok r) :
    shapeOk r := by
  simp only [createMultiSelectCrossTab] at h
  split at h
  · exact absurd h (by simp)
  · rw [Except.ok.injEq] at h
    subst h
    refine ⟨?_, ?_, ?_, ?_, ?_, ?_, ?_⟩
    · simp
    · rw [performSignificanceTests_length]
    · simp
    · simp [length_bannerPairs]
    · intro row hrow
      rw [List.mem_append, List.mem_map, List.mem_singleton] at hrow
      rcases hrow with ⟨pc, _, heq⟩ | h1
      · simp [← heq, length_bannerPairs]
      · subst h1; simp [length_bannerPairs]
    · intro row hrow
      rw [List.mem_append, List.mem_map, List.mem_singleton] at hrow
      rcases hrow with ⟨pc, _, heq⟩ | h1
      · simp [← heq, length_bannerPairs]
      · subst h1; simp [length_bannerPairs]
    · intro row hrow
      obtain ⟨row₀, h₀, heq⟩ := performSignificanceTests_row_length _ _ _ _ row hrow
      rw [heq]
      rw [List.mem_append, List.mem_map, List.mem_singleton] at h₀
      rcases h₀ with ⟨pc, _, heq2⟩ | h1
      · simp [← heq2, length_bannerPairs]
      · subst h1; simp [length_bannerPairs]

theorem length_flatMap_congr {α β γ : Type} (l : List α) (f : α → List β) (g : α → List γ)
    (h : ∀ x ∈ l, (f x).length = (g x).length) :
    (l.flatMap f).length = (l.flatMap g).length := by
  induction l with
  | nil => rfl
  | cons x xs ih =>
    simp only [List.flatMap_cons, List.length_append, h x (by simp)]
    rw [ih (fun y hy => h y (by simp [hy]))]

theorem createRankQuestionCrossTab_shape (K : JsEnv)
    (dataMap : List (List (String × String))) (questionName : String)
    (bannerVars : List String) (rankStructure : RankQuestionStructure)
    (displayName : String) :
    shapeOk (createRankQuestionCrossTab K dataMap questionName bannerVars
      rankStructure displayName) := by
  simp only [createRankQuestionCrossTab, shapeOk, createRankingCrossTab]
  refine ⟨?_, ?_, ?_, ?_, ?_, ?_, ?_⟩
  · refine length_flatMap_congr _ _ _ (fun sec hsec => ?_)
    by_cases he : sec.2.isEmpty <;> simp [he]
  · rw [performSignificanceTests_length]
  · refine length_flatMap_congr _ _ _ (fun sec hsec => ?_)
    by_cases he : sec.2.isEmpty <;> simp [he]
  · simp [length_bannerPairs]
  · intro row hrow
    rw [List.mem_flatMap] at hrow
    obtain ⟨sec, hsec, hmem⟩ := hrow
    by_cases he : sec.2.isEmpty
    · simp [he] at hmem
    · rw [if_neg (by simpa using he), List.mem_cons, List.mem_map] at hmem
      rcases hmem with h1 | ⟨row₀, hr₀, heq⟩
      · subst h1; simp [length_bannerPairs]
      · have hlen : row₀.length = ((bannerPairs bannerVars
            (fun bv => bannerValuesOf dataMap bv)).length + 1) := by
          fin_cases hsec <;>
            (rw [List.mem_map] at hr₀; obtain ⟨oi, _, heq2⟩ := hr₀;
             simp [← heq2])
        simp [← heq, hlen, length_bannerPairs, List.enum_length]
  · intro row hrow
    rw [List.mem_flatMap] at hrow
    obtain ⟨sec, hsec, hmem⟩ := hrow
    by_cases he : sec.2.isEmpty
    · simp [he] at hmem
    · rw [if_neg (by simpa using he), List.mem_cons, List.mem_map] at hmem
      rcases hmem with h1 | ⟨row₀, hr₀, heq⟩
      · subst h1; simp [length_bannerPairs]
      · have hlen : row₀.length = ((bannerPairs bannerVars
            (fun bv => bannerValuesOf dataMap bv)).length + 1) := by
          fin_cases hsec <;>
            (rw [List.mem_map] at hr₀; obtain ⟨oi, _, heq2⟩ := hr₀;
             simp [← heq2])
        simp [← heq, hlen, length_bannerPairs]
  · intro row hrow
    obtain ⟨row₀, h₀, heq⟩ := performSignificanceTests_row_length _ _ _ _ row hrow
    rw [heq]
    rw [List.mem_flatMap] at h₀
    obtain ⟨sec, hsec, hmem⟩ := h₀
    by_cases he : sec.2.isEmpty
    · simp [he] at hmem
    · rw [if_neg (by simpa using he), List.mem_cons, List.mem_map] at hmem
      rcases hmem with h1 | ⟨row₁, hr₁, heq1⟩
      · subst h1; simp [length_bannerPairs]
      · have hlen : row₁.length = ((bannerPairs bannerVars
            (fun bv => bannerValuesOf dataMap bv)).length + 1) := by
          fin_cases hsec <;>
            (rw [List.mem_map] at hr₁; obtain ⟨oi, _, heq2⟩ := hr₁;
             simp [← heq2])
        simp [← heq1, hlen, length_bannerPairs, List.enum_length]

theorem foldlM_except_forall {α β : Type} (P : β → Prop)
    (f : List β → α → Except String (List β))
    (hf : ∀ acc v out, f acc v = .ok out → (∀ x ∈ acc, P x) → (∀ x ∈ out, P x)) :
    ∀ (l : List α) (acc out : List β), List.foldlM f acc l = .ok out →
      (∀ x ∈ acc, P x) → (∀ x ∈ out, P x) := by
  intro l
  induction l with
  | nil =>
    intro acc out h hacc
    simp only [List.foldlM_nil] at h
    cases h
    exact hacc
  | cons v vs ih =>
    intro acc out h hacc
    rw [List.foldlM_cons] at h
    cases hstep : f acc v with
    | error e =>
      rw [hstep] at h
      exact absurd (show (Except.error e : Except String (List β)) = .ok out from h)
        (by simp)
    | ok acc' =>
      rw [hstep] at h
      exact ih acc' out h (hf acc v acc' hstep hacc)

/-- CLAIM C2: every `CrossTabResult` that `generateCrossTabs` returns
satisfies the dimensional invariant `shapeOk`: percentage and significance
matrices match the absolute matrix row-for-row, row labels are parallel to
the rows, and headers, base vector and every row share one width. -/
theorem generateCrossTabs_shape (K : JsEnv) (data : ExcelData) (config : CrossTabConfig)
    (results : List CrossTabResult)
    (h : generateCrossTabs K data config = .ok results) :
    ∀ r ∈ results, shapeOk r := by
  unfold generateCrossTabs at h
  refine foldlM_except_forall shapeOk _ ?_ config.tableVariables [] results h (by simp)
  intro acc v out hstep hacc
  dsimp only at hstep
  cases hms : config.multiSelectGroups.lookup v with
  | some cols =>
    rw [hms] at hstep
    dsimp only at hstep
    by_cases hce : cols.isEmpty
    · rw [if_pos hce] at hstep
      cases hstep
      exact hacc
    · rw [if_neg hce] at hstep
      cases hc : createMultiSelectCrossTab K
          (makeDataMap data.headers (applyFilters data config.filters).rows) v
          config.bannerVariables cols (jsOrElse (config.tableNames.lookup v) v) with
      | error e => rw [hc] at hstep; simp [Except.map] at hstep
      | ok r =>
        rw [hc] at hstep
        simp only [Except.map] at hstep
        cases hstep
        intro x hx
        rw [List.mem_append, List.mem_singleton] at hx
        rcases hx with hx | hx
        · exact hacc x hx
        · subst hx
          exact createMultiSelectCrossTab_shape _ _ _ _ _ _ _ hc
  | none =>
    rw [hms] at hstep
    dsimp only at hstep
    by_cases hcv : config.customVariables.contains v
    · rw [if_pos hcv] at hstep
      simp only [createCustomVariableCrossTab, Option.toList_none, List.append_nil] at hstep
      cases hstep
      exact hacc
    · rw [if_neg hcv] at hstep
      cases hrk : (detectRankQuestionStructure data.headers config.questionTypes).find?
          (fun rk => rk.questionName == v) with
      | some rankStructure =>
        rw [hrk] at hstep
        dsimp only at hstep
        cases hstep
        intro x hx
        rw [List.mem_append, List.mem_singleton] at hx
        rcases hx with hx | hx
        · exact hacc x hx
        · subst hx
          exact createRankQuestionCrossTab_shape _ _ _ _ _ _
      | none =>
        rw [hrk] at hstep
        dsimp only at hstep
        by_cases hhd : data.headers.contains v
        · rw [if_pos hhd] at hstep
          cases hr : createRegularCrossTab K
              (makeDataMap data.headers (applyFilters data config.filters).rows) v
              config.bannerVariables (jsOrElse (config.questionTypes.lookup v) "single-choice")
              (jsOrElse (config.tableNames.lookup v) v) with
          | none =>
            rw [hr] at hstep
            simp only [Option.toList_none, List.append_nil] at hstep
            cases hstep
            exact hacc
          | some r =>
            rw [hr] at hstep
            simp only [Option.toList_some] at hstep
            cases hstep
            intro x hx
            rw [List.mem_append, List.mem_singleton] at hx
            rcases hx with hx | hx
            · exact hacc x hx
            · subst hx
              exact createRegularCrossTab_shape _ _ _ _ _ _ _ hr
        · rw [if_neg hhd] at hstep
          cases hstep
          exact hacc

/-- Witness for the shape invariant: one multi-select run with a single
never-selected column produces exactly one result, whose shape the theorem
certifies. -/
theorem generateCrossTabs_shape_witness :
    shapeOk
      { name := "MS_by_"
        displayName := "MS"
        absolute := [[0], [0]]
        percentage := [["0%"], ["100%"]]
        headers := ["Total"]
        rowLabels := ["M", "NET: Any Response"]
        bannerQuestion := ""
        bannerAnswers := []
        questionType := "multiple-choice"
        baseValues := [0]
        validationErrors :=
          ["No respondents found who answered any option in multi-select group: MS"]
        significanceFlags := [[""], [""]]
        bannerStructure := [] } := by
  have hrun : generateCrossTabs envZero ⟨["M"], [["0"]]⟩
      ⟨["MS"], [], [("MS", ["M"])], [], [], [], []⟩ = .ok
        [{ name := "MS_by_"
           displayName := "MS"
           absolute := [[0], [0]]
           percentage := [["0%"], ["100%"]]
           headers := ["Total"]
           rowLabels := ["M", "NET: Any Response"]
           bannerQuestion := ""
           bannerAnswers := []
           questionType := "multiple-choice"
           baseValues := [0]
           validationErrors :=
             ["No respondents found who answered any option in multi-select group: MS"]
           significanceFlags := [[""], [""]]
           bannerStructure := [] }] := by rfl
  exact generateCrossTabs_shape envZero _ _ _ hrun _ (List.mem_singleton.mpr rfl)

/-- CLAIM C6 (counterexample to the claimed failure signal): a run whose
single table variable names a custom variable finishes successfully with an
empty result list — no result, no error, no validation warning. -/
theorem generateCrossTabs_customVariable_silent :
    generateCrossTabs envZero ⟨["A"], [["x"]]⟩ ⟨["cv"], [], [], [], [], [], ["cv"]⟩
      = .ok [] := by rfl

/-- CLAIM C6 (amended): cross-tab generation silently omits a custom table
variable: the stub creator returns no result, so the variable contributes
nothing and no failure signal of any kind is produced. -/
theorem generateCrossTabs_customVariable_omitted (K : JsEnv) (data : ExcelData)
    (config : CrossTabConfig) (v : String)
    (htv : config.tableVariables = [v])
    (hms : config.multiSelectGroups.lookup v = none)
    (hcv : config.customVariables.contains v = true) :
    generateCrossTabs K data config = .ok [] := by
  unfold generateCrossTabs
  rw [htv, List.foldlM_cons]
  dsimp only
  rw [hms]
  dsimp only
  rw [if_pos hcv]
  rfl

/-- Witness for the amended C6 statement at a concrete configuration. -/
theorem generateCrossTabs_customVariable_omitted_witness :
    generateCrossTabs envZero ⟨["B"], [["y"]]⟩ ⟨["cv2"], [], [], [], [], [], ["cv2"]⟩
      = .ok [] :=
  generateCrossTabs_customVariable_omitted envZero _ _ "cv2" rfl rfl (by decide)

/-- CLAIM C10: the multi-select creator is only total on a non-empty row
set.  With zero rows and a non-empty battery column list the
`dataMap[0].hasOwnProperty` read throws, and the whole generation run
aborts with that error: no result and no validation warning is produced. -/
theorem multiSelect_zero_rows_throws (K : JsEnv) (g : String) (bvs : List String)
    (cols : List String) (dn : String) (data : ExcelData) (config : CrossTabConfig)
    (hcols : cols ≠ [])
    (htv : config.tableVariables = [g])
    (hms : config.multiSelectGroups.lookup g = some cols)
    (hrows : (applyFilters data config.filters).rows = []) :
    createMultiSelectCrossTab K [] g bvs cols dn
      = .error "TypeError: Cannot read properties of undefined (reading 'hasOwnProperty')"
    ∧ generateCrossTabs K data config
      = .error "TypeError: Cannot read properties of undefined (reading 'hasOwnProperty')" := by
  have hcreator : ∀ (g' : String) (bvs' : List String) (dn' : String),
      createMultiSelectCrossTab K [] g' bvs' cols dn'
        = .error "TypeError: Cannot read properties of undefined (reading 'hasOwnProperty')" := by
    intro g' bvs' dn'
    unfold createMultiSelectCrossTab
    rw [if_pos ⟨by simpa using hcols, by simp⟩]
  refine ⟨hcreator g bvs dn, ?_⟩
  unfold generateCrossTabs
  rw [htv, List.foldlM_cons]
  dsimp only
  rw [hms]
  dsimp only
  rw [if_neg (by simpa using hcols)]
  rw [show makeDataMap data.headers (applyFilters data config.filters).rows = [] from by
    rw [hrows]; rfl]
  rw [hcreator]
  rfl

/-- Witness for the zero-row multi-select crash at a concrete dataset. -/
theorem multiSelect_zero_rows_throws_witness :
    generateCrossTabs envZero ⟨["M"], []⟩ ⟨["MS"], [], [("MS", ["M"])], [], [], [], []⟩
      = .error "TypeError: Cannot read properties of undefined (reading 'hasOwnProperty')" :=
  (multiSelect_zero_rows_throws envZero "MS" [] ["M"] "MS" ⟨["M"], []⟩
    ⟨["MS"], [], [("MS", ["M"])], [], [], [], []⟩ (by decide) rfl rfl rfl).2

/-! ## Scenario A: the spec's regular cross-tab walkthrough

The dataset of §8 Scenario A: 100 respondents with a binary `Gender`
column (60 Male / 40 Female) and a `Region` banner (North: 30 M / 10 F,
South: 30 M / 30 F).  The numeric facts below pin down what the code
actually emits on it, including that no significance flag fires at
`alpha = 0.05`: the two non-trivial z-scores are `0.15/sqrt(9/1120)`
(about 1.673, p about 0.094) and `0.1/sqrt(21/3200)` (about 1.234,
p about 0.217).  The square-root and exponential hypotheses are loose
two-sided intervals that IEEE-754 doubles satisfy with wide margins. -/

/-- A not-significant test result always renders as the empty flag. -/
theorem flagOfTest_of_not_sig (t : SignificanceTestResult)
    (h : t.isSignificant = false) : flagOfTest t = "" := by
  simp [flagOfTest, h]

/-- If the CDF approximation at `|z|` stays at or below 39/40, the two-sided
p-value stays at or above the default 1/20 and the test is not significant. -/
theorem zTest_not_significant_of_cdf_le (K : JsEnv) (c1 t1 c2 t2 : ℚ)
    (h : normalCDF K |(c1 / t1 - c2 / t2) / K.sqrt ((c1 + c2) / (t1 + t2)
      * (1 - (c1 + c2) / (t1 + t2)) * (1 / t1 + 1 / t2))| ≤ 39/40) :
    (zTestForProportions K c1 t1 c2 t2 defaultAlpha).isSignificant = false := by
  by_cases h1 : t1 = 0 ∨ t2 = 0
  · rw [zTestForProportions, if_pos h1]
  · by_cases h2 : K.sqrt ((c1 + c2) / (t1 + t2) * (1 - (c1 + c2) / (t1 + t2))
        * (1 / t1 + 1 / t2)) = 0
    · simp only [zTestForProportions, if_neg h1]
      rw [if_pos h2]
    · simp only [zTestForProportions, if_neg h1, if_neg h2]
      refine decide_eq_false ?_
      rw [defaultAlpha]
      intro hlt
      linarith

set_option maxHeartbeats 1000000 in
/-- Lower interval bound for the CDF tail at arguments near 1.673: the
Abramowitz–Stegun product stays at least 1/40 away from 1. -/
theorem normalCDF_le_of_range1 (K : JsEnv) (x : ℚ) (hxl : (1.6722:ℚ) ≤ x)
    (hxh : x ≤ 1.6742) (hE : (0.24:ℚ) ≤ K.exp (-x * x / 2)) :
    normalCDF K x ≤ 39/40 := by
  have hx0 : (0:ℚ) < x := by linarith
  simp only [normalCDF]
  rw [abs_of_pos hx0, if_pos hx0]
  set E := K.exp (-x * x / 2) with hEdef
  set u : ℚ := 1 / (1 + 0.2316419 * x) with hudef
  have hD0 : (0:ℚ) < 1 + 0.2316419 * x := by nlinarith
  have hDl : (1.3873:ℚ) ≤ 1 + 0.2316419 * x := by nlinarith
  have hDh : 1 + 0.2316419 * x ≤ 1.38782 := by nlinarith
  have hu_hi : u ≤ 0.72083 := by
    rw [hudef, div_le_iff₀ hD0]; nlinarith
  have hu_lo : (0.72046:ℚ) ≤ u := by
    rw [hudef, le_div_iff₀ hD0]; nlinarith
  have hu0 : (0:ℚ) < u := by linarith
  have hsq_lo : (0.51906:ℚ) ≤ u * u := by nlinarith
  have hsq_hi : u * u ≤ 0.519597 := by nlinarith
  have hcube_hi : u * u * u ≤ 0.374541 := by
    nlinarith [mul_le_mul hsq_hi hu_hi (le_of_lt hu0) (by norm_num : (0:ℚ) ≤ 0.519597)]
  have hquad_lo : (0.269423:ℚ) ≤ u * u * u * u := by
    nlinarith [mul_le_mul hsq_lo hsq_lo (by norm_num) (by nlinarith : (0:ℚ) ≤ u * u)]
  have hH : (0.6632:ℚ) ≤ 0.3193815
      + u * (-0.3565638 + u * (1.781478 + u * (-1.821256 + u * 1.330274))) := by
    nlinarith [hu_hi, hsq_lo, hcube_hi, hquad_lo]
  have hE0 : (0:ℚ) ≤ E := by linarith
  have hEu : (0.24 * 0.72046 : ℚ) ≤ E * u :=
    mul_le_mul hE hu_lo (by norm_num) hE0
  have hEuH : (0.24 * 0.72046 : ℚ) * 0.6632 ≤ (E * u) * (0.3193815
      + u * (-0.3565638 + u * (1.781478 + u * (-1.821256 + u * 1.330274)))) :=
    mul_le_mul hEu hH (by norm_num) (mul_nonneg hE0 (le_of_lt hu0))
  nlinarith [hEuH]

set_option maxHeartbeats 1000000 in
/-- Lower interval bound for the CDF tail at arguments near 1.234. -/
theorem normalCDF_le_of_range2 (K : JsEnv) (x : ℚ) (hxl : (1.233:ℚ) ≤ x)
    (hxh : x ≤ 1.2346) (hE : (0.46:ℚ) ≤ K.exp (-x * x / 2)) :
    normalCDF K x ≤ 39/40 := by
  have hx0 : (0:ℚ) < x := by linarith
  simp only [normalCDF]
  rw [abs_of_pos hx0, if_pos hx0]
  set E := K.exp (-x * x / 2) with hEdef
  set u : ℚ := 1 / (1 + 0.2316419 * x) with hudef
  have hD0 : (0:ℚ) < 1 + 0.2316419 * x := by nlinarith
  have hDl : (1.28561:ℚ) ≤ 1 + 0.2316419 * x := by nlinarith
  have hDh : 1 + 0.2316419 * x ≤ 1.28599 := by nlinarith
  have hu_hi : u ≤ 0.77785 := by
    rw [hudef, div_le_iff₀ hD0]; nlinarith
  have hu_lo : (0.7776:ℚ) ≤ u := by
    rw [hudef, le_div_iff₀ hD0]; nlinarith
  have hu0 : (0:ℚ) < u := by linarith
  have hsq_lo : (0.604661:ℚ) ≤ u * u := by nlinarith
  have hsq_hi : u * u ≤ 0.605051 := by nlinarith
  have hcube_hi : u * u * u ≤ 0.470639 := by
    nlinarith [mul_le_mul hsq_hi hu_hi (le_of_lt hu0) (by norm_num : (0:ℚ) ≤ 0.605051)]
  have hquad_lo : (0.365614:ℚ) ≤ u * u * u * u := by
    nlinarith [mul_le_mul hsq_lo hsq_lo (by norm_num) (by nlinarith : (0:ℚ) ≤ u * u)]
  have hH : (0.7484:ℚ) ≤ 0.3193815
      + u * (-0.3565638 + u * (1.781478 + u * (-1.821256 + u * 1.330274))) := by
    nlinarith [hu_hi, hsq_lo, hcube_hi, hquad_lo]
  have hE0 : (0:ℚ) ≤ E := by linarith
  have hEu : (0.46 * 0.7776 : ℚ) ≤ E * u :=
    mul_le_mul hE hu_lo (by norm_num) hE0
  have hEuH : (0.46 * 0.7776 : ℚ) * 0.7484 ≤ (E * u) * (0.3193815
      + u * (-0.3565638 + u * (1.781478 + u * (-1.821256 + u * 1.330274)))) :=
    mul_le_mul hEu hH (by norm_num) (mul_nonneg hE0 (le_of_lt hu0))
  nlinarith [hEuH]

/-- Not-significant verdict for any cell whose pooled variance term is
`9/1120` and whose proportion gap is `3/20` in absolute value. -/
theorem zTest_cell_not_sig_s1 (K : JsEnv) (c1 t1 c2 t2 : ℚ)
    (hs1l : (0.0896:ℚ) ≤ K.sqrt (9/1120)) (hs1h : K.sqrt (9/1120) ≤ 0.0897)
    (hexpA : ∀ q : ℚ, -1.41 ≤ q → q ≤ -1.39 → (0.24:ℚ) ≤ K.exp q)
    (harg : (c1 + c2) / (t1 + t2) * (1 - (c1 + c2) / (t1 + t2))
      * (1 / t1 + 1 / t2) = 9/1120)
    (hdiff : |c1 / t1 - c2 / t2| = 3/20) :
    (zTestForProportions K c1 t1 c2 t2 defaultAlpha).isSignificant = false := by
  apply zTest_not_significant_of_cdf_le
  rw [harg]
  have hs0 : (0:ℚ) < K.sqrt (9/1120) := by linarith
  rw [abs_div, hdiff, abs_of_pos hs0]
  set x : ℚ := (3/20) / K.sqrt (9/1120) with hxdef
  have hx_hi : x ≤ 1.6742 := by
    rw [hxdef, div_le_iff₀ hs0]; nlinarith
  have hx_lo : (1.6722:ℚ) ≤ x := by
    rw [hxdef, le_div_iff₀ hs0]; nlinarith
  have hxx_hi : x * x ≤ 2.80295 := by
    nlinarith [mul_le_mul hx_hi hx_hi (by linarith : (0:ℚ) ≤ x) (by norm_num : (0:ℚ) ≤ 1.6742)]
  have hxx_lo : (2.79625:ℚ) ≤ x * x := by
    nlinarith [mul_le_mul hx_lo hx_lo (by norm_num : (0:ℚ) ≤ 1.6722) (by linarith : (0:ℚ) ≤ x)]
  exact normalCDF_le_of_range1 K x hx_lo hx_hi
    (hexpA _ (by linarith) (by linarith))

/-- Not-significant verdict for any cell whose pooled variance term is
`21/3200` and whose proportion gap is `1/10` in absolute value. -/
theorem zTest_cell_not_sig_s2 (K : JsEnv) (c1 t1 c2 t2 : ℚ)
    (hs2l : (0.081:ℚ) ≤ K.sqrt (21/3200)) (hs2h : K.sqrt (21/3200) ≤ 0.0811)
    (hexpB : ∀ q : ℚ, -0.77 ≤ q → q ≤ -0.75 → (0.46:ℚ) ≤ K.exp q)
    (harg : (c1 + c2) / (t1 + t2) * (1 - (c1 + c2) / (t1 + t2))
      * (1 / t1 + 1 / t2) = 21/3200)
    (hdiff : |c1 / t1 - c2 / t2| = 1/10) :
    (zTestForProportions K c1 t1 c2 t2 defaultAlpha).isSignificant = false := by
  apply zTest_not_significant_of_cdf_le
  rw [harg]
  have hs0 : (0:ℚ) < K.sqrt (21/3200) := by linarith
  rw [abs_div, hdiff, abs_of_pos hs0]
  set x : ℚ := (1/10) / K.sqrt (21/3200) with hxdef
  have hx_hi : x ≤ 1.2346 := by
    rw [hxdef, div_le_iff₀ hs0]; nlinarith
  have hx_lo : (1.233:ℚ) ≤ x := by
    rw [hxdef, le_div_iff₀ hs0]; nlinarith
  have hxx_hi : x * x ≤ 1.52424 := by
    nlinarith [mul_le_mul hx_hi hx_hi (by linarith : (0:ℚ) ≤ x) (by norm_num : (0:ℚ) ≤ 1.2346)]
  have hxx_lo : (1.520289:ℚ) ≤ x * x := by
    nlinarith [mul_le_mul hx_lo hx_lo (by norm_num : (0:ℚ) ≤ 1.233) (by linarith : (0:ℚ) ≤ x)]
  exact normalCDF_le_of_range2 K x hx_lo hx_hi
    (hexpB _ (by linarith) (by linarith))

/-- Percentage-cell evaluation on a positive base. -/
theorem pctString_eval_pos (count base : ℕ) (hb : 0 < base) :
    pctString count base
      = toString (((200 * count + base) / (2 * base) : ℕ) : ℤ) ++ "%" := by
  unfold pctString
  rw [pctNum_eval, if_pos hb]

/-- The Scenario A rows: 30 Male/North, 10 Female/North, 30 Male/South,
30 Female/South. -/
def scenARows : List (List String) :=
  List.replicate 30 ["Male", "North"] ++ List.replicate 10 ["Female", "North"]
  ++ List.replicate 30 ["Male", "South"] ++ List.replicate 30 ["Female", "South"]

def scenADataMap : List (List (String × String)) :=
  makeDataMap ["Gender", "Region"] scenARows

/-- CLAIM C4 (counterexample): on the Scenario A dataset the regular
cross-tab does not produce the claimed absolute matrix
`[[60,30,30],[40,10,30]]` (Male row first): the rows come out sorted with
Female first and a Total row is appended. -/
theorem scenarioA_claim_matrices_diverge :
    (createRegularCrossTab envZero scenADataMap "Gender" ["Region"] "binary"
        "Gender").map (fun r => (r.absolute, r.rowLabels))
      = some ([[40,10,30],[60,30,30],[100,40,60]], ["Female","Male","Total"])
    ∧ ¬ ((createRegularCrossTab envZero scenADataMap "Gender" ["Region"] "binary"
        "Gender").map (fun r => r.absolute)
      = some [[60,30,30],[40,10,30]]) := by
  constructor
  · rfl
  · intro h
    have h1 : (createRegularCrossTab envZero scenADataMap "Gender" ["Region"]
        "binary" "Gender").map (fun r => r.absolute)
        = some [[40,10,30],[60,30,30],[100,40,60]] := rfl
    rw [h1] at h
    exact absurd h (by decide)

/-- CLAIM C4 (amended behavior): on the Scenario A dataset the regular
cross-tab emits headers `[Total, North, South]`, row labels
`[Female, Male, Total]`, absolute matrix
`[[40,10,30],[60,30,30],[100,40,60]]`, base values `[100,40,60]`,
percentage strings `40%/25%/50%`, `60%/75%/50%`, `100%/100%/100%` — and no
significance flag anywhere at the default `alpha = 1/20`, under interval
hypotheses on the environment's `sqrt` and `exp` that IEEE-754 doubles
satisfy. -/
theorem scenarioA_actual (K : JsEnv) (hexp0 : K.exp 0 = 1)
    (hs1l : (0.0896:ℚ) ≤ K.sqrt (9/1120)) (hs1h : K.sqrt (9/1120) ≤ 0.0897)
    (hs2l : (0.081:ℚ) ≤ K.sqrt (21/3200)) (hs2h : K.sqrt (21/3200) ≤ 0.0811)
    (hexpA : ∀ q : ℚ, -1.41 ≤ q → q ≤ -1.39 → (0.24:ℚ) ≤ K.exp q)
    (hexpB : ∀ q : ℚ, -0.77 ≤ q → q ≤ -0.75 → (0.46:ℚ) ≤ K.exp q) :
    (createRegularCrossTab K scenADataMap "Gender" ["Region"] "binary"
        "Gender").map (fun r => (r.headers, r.rowLabels, r.absolute, r.baseValues))
      = some (["Total","North","South"], ["Female","Male","Total"],
          [[40,10,30],[60,30,30],[100,40,60]], [100,40,60])
    ∧ (createRegularCrossTab K scenADataMap "Gender" ["Region"] "binary"
        "Gender").map (fun r => r.percentage)
      = some [["40%","25%","50%"],["60%","75%","50%"],["100%","100%","100%"]]
    ∧ (createRegularCrossTab K scenADataMap "Gender" ["Region"] "binary"
        "Gender").map (fun r => r.significanceFlags)
      = some [["","",""],["","",""],["","",""]] := by
  refine ⟨rfl, ?_, ?_⟩
  · have c1 : pctString 40 100 = "40%" := by
      rw [pctString_eval_pos 40 100 (by decide)]; decide
    have c2 : pctString 10 40 = "25%" := by
      rw [pctString_eval_pos 10 40 (by decide)]; decide
    have c3 : pctString 30 60 = "50%" := by
      rw [pctString_eval_pos 30 60 (by decide)]; decide
    have c4 : pctString 60 100 = "60%" := by
      rw [pctString_eval_pos 60 100 (by decide)]; decide
    have c5 : pctString 30 40 = "75%" := by
      rw [pctString_eval_pos 30 40 (by decide)]; decide
    show some [[pctString 40 100, pctString 10 40, pctString 30 60],
               [pctString 60 100, pctString 30 40, pctString 30 60],
               ["100%", "100%", "100%"]]
      = some [["40%","25%","50%"],["60%","75%","50%"],["100%","100%","100%"]]
    rw [c1, c2, c3, c4, c5]
  · have habs1 : |(10:ℚ)/40 - 40/100| = 3/20 := by
      rw [show (10:ℚ)/40 - 40/100 = -(3/20) from by norm_num, abs_neg,
        abs_of_pos (show (0:ℚ) < 3/20 from by norm_num)]
    have habs2 : |(30:ℚ)/60 - 40/100| = 1/10 := by
      rw [show (30:ℚ)/60 - 40/100 = 1/10 from by norm_num,
        abs_of_pos (show (0:ℚ) < 1/10 from by norm_num)]
    have habs3 : |(30:ℚ)/40 - 60/100| = 3/20 := by
      rw [show (30:ℚ)/40 - 60/100 = 3/20 from by norm_num,
        abs_of_pos (show (0:ℚ) < 3/20 from by norm_num)]
    have habs4 : |(30:ℚ)/60 - 60/100| = 1/10 := by
      rw [show (30:ℚ)/60 - 60/100 = -(1/10) from by norm_num, abs_neg,
        abs_of_pos (show (0:ℚ) < 1/10 from by norm_num)]
    have e1 : flagOfTest (zTestForProportions K 10 40 40 100 defaultAlpha) = "" :=
      flagOfTest_of_not_sig _ (zTest_cell_not_sig_s1 K 10 40 40 100 hs1l hs1h hexpA
        (by norm_num) habs1)
    have e2 : flagOfTest (zTestForProportions K 30 60 40 100 defaultAlpha) = "" :=
      flagOfTest_of_not_sig _ (zTest_cell_not_sig_s2 K 30 60 40 100 hs2l hs2h hexpB
        (by norm_num) habs2)
    have e3 : flagOfTest (zTestForProportions K 30 40 60 100 defaultAlpha) = "" :=
      flagOfTest_of_not_sig _ (zTest_cell_not_sig_s1 K 30 40 60 100 hs1l hs1h hexpA
        (by norm_num) habs3)
    have e4 : flagOfTest (zTestForProportions K 30 60 60 100 defaultAlpha) = "" :=
      flagOfTest_of_not_sig _ (zTest_cell_not_sig_s2 K 30 60 60 100 hs2l hs2h hexpB
        (by norm_num) habs4)
    have e5 : flagOfTest (zTestForProportions K 40 40 100 100 defaultAlpha) = "" :=
      flagOfTest_of_not_sig _ (zTest_eq_proportions_not_significant K hexp0
        40 40 100 100 (by norm_num))
    have e6 : flagOfTest (zTestForProportions K 60 60 100 100 defaultAlpha) = "" :=
      flagOfTest_of_not_sig _ (zTest_eq_proportions_not_significant K hexp0
        60 60 100 100 (by norm_num))
    show some [["", flagOfTest (zTestForProportions K 10 40 40 100 defaultAlpha),
                flagOfTest (zTestForProportions K 30 60 40 100 defaultAlpha)],
               ["", flagOfTest (zTestForProportions K 30 40 60 100 defaultAlpha),
                flagOfTest (zTestForProportions K 30 60 60 100 defaultAlpha)],
               ["", flagOfTest (zTestForProportions K 40 40 100 100 defaultAlpha),
                flagOfTest (zTestForProportions K 60 60 100 100 defaultAlpha)]]
      = some [["","",""],["","",""],["","",""]]
    rw [e1, e2, e3, e4, e5, e6]

/-- A concrete piecewise-rational environment meeting every interval
hypothesis of the Scenario A theorem. -/
def envScenA : JsEnv :=
  { sqrt := fun q => if q = 9/1120 then 0.08964 else if q = 21/3200 then 0.08101 else 0
    exp := fun q => if q = 0 then 1 else if q ≤ -1 then 0.246 else 0.4666
    log := fun _ => 0
    validDate := fun _ => false }

theorem scenarioA_actual_witness :
    (createRegularCrossTab envScenA scenADataMap "Gender" ["Region"] "binary"
        "Gender").map (fun r => r.significanceFlags)
      = some [["","",""],["","",""],["","",""]] :=
  (scenarioA_actual envScenA
    (by simp [envScenA])
    (by norm_num [envScenA]) (by norm_num [envScenA])
    (by norm_num [envScenA]) (by norm_num [envScenA])
    (fun q h1 h2 => by
      simp only [envScenA]
      rw [if_neg (by intro h; rw [h] at h2; norm_num at h2),
        if_pos (by linarith)]
      norm_num)
    (fun q h1 h2 => by
      simp only [envScenA]
      rw [if_neg (by intro h; rw [h] at h2; norm_num at h2),
        if_neg (by intro h; linarith)]
      norm_num)).2.2

/-! ## TypeDetector (`analyzeQuestionType`) -/

/-- Result record of per-column type inference (`QuestionTypeAnalysis`);
the `type` field is rendered `qtype`. -/
structure QuestionTypeAnalysis where
  qtype : String
  confidence : ℚ
  reasoning : String
  deriving DecidableEq, Repr

/-- Trimmed, non-placeholder sample values, capped at the sample size. -/
def cleanValuesOf (values : List String) (sampleSize : ℕ) : List String :=
  ((values.map jsTrim).filter (fun v =>
    v != "" && v != "null" && v != "undefined" && v != "N/A" && v != "n/a")).take sampleSize

/-- Split a character list at every occurrence of `sep`. -/
def splitOnChar (sep : Char) (cs : List Char) : List (List Char) :=
  cs.foldr (fun c acc =>
    if c == sep then [] :: acc
    else match acc with
      | [] => [[c]]
      | g :: gs => (c :: g) :: gs) [[]]

/-- All characters are digits and the length lies in `[lo, hi]`. -/
def digitRun (lo hi : ℕ) (cs : List Char) : Bool :=
  cs.all Char.isDigit && lo ≤ cs.length && cs.length ≤ hi

/-- `^\d{4}-\d{2}-\d{2}$`. -/
def dateP1 (cs : List Char) : Bool :=
  match splitOnChar '-' cs with
  | [a, b, c] => digitRun 4 4 a && digitRun 2 2 b && digitRun 2 2 c
  | _ => false

/-- `^\d{2}\/\d{2}\/\d{4}$`. -/
def dateP2 (cs : List Char) : Bool :=
  match splitOnChar '/' cs with
  | [a, b, c] => digitRun 2 2 a && digitRun 2 2 b && digitRun 4 4 c
  | _ => false

/-- `^\d{2}-\d{2}-\d{4}$`. -/
def dateP3 (cs : List Char) : Bool :=
  match splitOnChar '-' cs with
  | [a, b, c] => digitRun 2 2 a && digitRun 2 2 b && digitRun 4 4 c
  | _ => false

/-- `^\d{1,2}\/\d{1,2}\/\d{2,4}$`. -/
def dateP4 (cs : List Char) : Bool :=
  match splitOnChar '/' cs with
  | [a, b, c] => digitRun 1 2 a && digitRun 1 2 b && digitRun 2 4 c
  | _ => false

/-- `^\d{4}\/\d{2}\/\d{2}$`. -/
def dateP5 (cs : List Char) : Bool :=
  match splitOnChar '/' cs with
  | [a, b, c] => digitRun 4 4 a && digitRun 2 2 b && digitRun 2 2 c
  | _ => false

/-- `^\d{2}:\d{2}(:\d{2})?$`. -/
def dateP6 (cs : List Char) : Bool :=
  match splitOnChar ':' cs with
  | [a, b] => digitRun 2 2 a && digitRun 2 2 b
  | [a, b, c] => digitRun 2 2 a && digitRun 2 2 b && digitRun 2 2 c
  | _ => false

/-- Split `date \s+ time` at the first whitespace run; the time part may
contain no further whitespace. -/
def dateTimeSplit (cs : List Char) : Option (List Char × List Char) :=
  let a := cs.takeWhile (fun c => !c.isWhitespace)
  let b := cs.drop a.length
  if b.isEmpty then none
  else
    let c := b.dropWhile Char.isWhitespace
    if c.any Char.isWhitespace then none else some (a, c)

/-- `^\d{4}-\d{2}-\d{2}\s+\d{2}:\d{2}(:\d{2})?$`. -/
def dateP7 (cs : List Char) : Bool :=
  match dateTimeSplit cs with
  | some (a, b) => dateP1 a && dateP6 b
  | none => false

/-- `^\d{2}\/\d{2}\/\d{4}\s+\d{2}:\d{2}(:\d{2})?$`. -/
def dateP8 (cs : List Char) : Bool :=
  match dateTimeSplit cs with
  | some (a, b) => dateP2 a && dateP6 b
  | none => false

/-- One of the eight fixed date/time patterns. -/
def matchesDatePattern (cs : List Char) : Bool :=
  dateP1 cs || dateP2 cs || dateP3 cs || dateP4 cs || dateP5 cs || dateP6 cs
    || dateP7 cs || dateP8 cs

/-- A cell counts as a date when a pattern fits or `new Date(v)` parses to a
year in [1900, 2100] (the latter via the environment oracle). -/
def isDateCell (K : JsEnv) (v : String) : Bool :=
  matchesDatePattern v.toList || K.validDate v

def dateKeywordList : List String :=
  ["date", "time", "when", "timestamp", "created", "updated", "birth", "start",
   "end", "schedule"]

/-- Header mentions a date-related keyword. -/
def hasDateKeyword (header : String) : Bool :=
  dateKeywordList.any (fun kw => strContains (jsLower header) kw)

def binaryPatternList : List (List String) :=
  [["yes", "no"], ["y", "n"], ["true", "false"], ["1", "0"],
   ["male", "female"], ["agree", "disagree"], ["pass", "fail"],
   ["on", "off"], ["enabled", "disabled"], ["active", "inactive"]]

def scaleKeywordList : List String :=
  ["rate", "rating", "scale", "score", "satisfaction", "likely", "likelihood",
   "agree", "important", "quality", "recommend", "how much", "extent",
   "strongly", "somewhat", "very", "extremely", "not at all"]

def numericKeywordList : List String :=
  ["age", "income", "salary", "price", "cost", "amount", "number", "count",
   "quantity"]

def openEndedKeywordList : List String :=
  ["comment", "feedback", "opinion", "explain", "describe", "why", "how",
   "other", "specify", "elaborate", "detail", "reason", "suggestion",
   "improvement", "additional", "anything else", "open", "text"]

def rankingKeywordList : List String :=
  ["rank", "ranking", "order", "priority", "preference", "choice", "1st",
   "2nd", "3rd", "_r1_", "_r2_", "_r3_", "_rank1", "_rank2", "_rank3"]

/-- The priority-ordered per-column type cascade (`analyzeQuestionType`);
the call sites use the default sample size 100. -/
def analyzeQuestionType (K : JsEnv) (header : String) (values : List String)
    (sampleSize : ℕ) : QuestionTypeAnalysis :=
  let cleanValues := cleanValuesOf values sampleSize
  if cleanValues.isEmpty then ⟨"single-choice", 0.1, "No valid data found"⟩
  else
    let uniqueValues := cleanValues.eraseDups
    let uniqueCount := uniqueValues.length
    let totalCount := cleanValues.length
    let uniqueRatio : ℚ := (uniqueCount : ℚ) / (totalCount : ℚ)
    let lowerHeader := jsLower header
    let dateMatches := cleanValues.filter (isDateCell K)
    if (dateMatches.length : ℚ) > (totalCount : ℚ) * 0.6
        ∧ (hasDateKeyword header = true ∨ uniqueRatio > 0.7) then
      ⟨"date", if hasDateKeyword header then 0.95 else 0.8,
        toString dateMatches.length ++ "/" ++ toString totalCount
          ++ " values match date/time patterns"
          ++ (if hasDateKeyword header then " with date keywords" else "")⟩
    else
      let lowerValues := uniqueValues.map jsLower
      let isBinary := binaryPatternList.any (fun pat =>
        pat.all (fun p => lowerValues.contains p))
      if uniqueCount = 2 ∧ (isBinary = true ∨ strContains lowerHeader "yes/no" = true
          ∨ strContains lowerHeader "true/false" = true) then
        ⟨"binary", 0.95, "Two distinct values matching binary patterns"⟩
      else
        let numericValues := (cleanValues.filterMap jsNumber).filter ratIsInt
        let mn := listMin numericValues
        let mx := listMax numericValues
        let hasScaleKeywords := scaleKeywordList.any (strContains lowerHeader)
        let isTypicalScale :=
          (mn = 1 ∧ mx ≤ 10 ∧ mx - mn ≤ 9) ∨ (mn = 0 ∧ mx ≤ 10 ∧ mx - mn ≤ 10)
        if (numericValues.length : ℚ) > (totalCount : ℚ) * 0.8
            ∧ isTypicalScale ∧ (hasScaleKeywords = true ∨ uniqueCount ≤ 11) then
          ⟨"scale", if hasScaleKeywords then 0.9 else 0.75,
            "Numeric range " ++ toString mn ++ "-" ++ toString mx ++ " with "
              ++ (if hasScaleKeywords then "scale keywords" else "limited unique values")⟩
        else
          let hasNumericKeywords := numericKeywordList.any (strContains lowerHeader)
          if (numericValues.length : ℚ) > (totalCount : ℚ) * 0.8
              ∧ (mx - mn > 20 ∨ hasNumericKeywords = true ∨ 15 < uniqueCount) then
            ⟨"numeric", 0.8,
              "Numeric values with "
                ++ (if hasNumericKeywords then "numeric keywords" else "wide range")
                ++ " (" ++ toString mn ++ "-" ++ toString mx ++ ")"⟩
          else
            let avgLength : ℚ :=
              ((cleanValues.map (fun v => (v.toList.length : ℚ))).sum) / (cleanValues.length : ℚ)
            let longResponseRatio : ℚ :=
              ((cleanValues.filter (fun v => 20 < v.toList.length)).length : ℚ)
                / (totalCount : ℚ)
            let hasOpenEndedKeywords := openEndedKeywordList.any (strContains lowerHeader)
            if uniqueRatio > 0.7
                ∧ (avgLength > 15 ∨ longResponseRatio > 0.3 ∨ hasOpenEndedKeywords = true)
                ∧ (dateMatches.length : ℚ) < (totalCount : ℚ) * 0.3 then
              ⟨"open-ended",
                if hasOpenEndedKeywords then 0.9 else if avgLength > 30 then 0.85 else 0.75,
                "High uniqueness (" ++ toString (jsRound (uniqueRatio * 100)) ++ "%) with "
                  ++ (if hasOpenEndedKeywords then "open-ended keywords" else "long responses")
                  ++ " (avg: " ++ toString (jsRound avgLength) ++ " chars)"⟩
            else
              let hasRankingKeywords := rankingKeywordList.any (strContains lowerHeader)
              if (numericValues.length : ℚ) > (totalCount : ℚ) * 0.6
                  ∧ (hasRankingKeywords = true
                    ∨ (1 ≤ mn ∧ mx ≤ 10 ∧ uniqueCount ≤ 10)) then
                ⟨"ranking", 0.85,
                  (if hasRankingKeywords then "Ranking keywords" else "Ranking pattern")
                    ++ " with numeric range " ++ toString mn ++ "-" ++ toString mx⟩
              else
                let multiChoiceIndicators := cleanValues.filter (fun v =>
                  let lv := jsLower v
                  lv == "1" || lv == "0" || lv == "yes" || lv == "no" || lv == "true"
                    || lv == "false" || lv == "selected" || lv == "x")
                if (multiChoiceIndicators.length : ℚ) > (totalCount : ℚ) * 0.8
                    ∧ uniqueCount ≤ 4 then
                  ⟨"multiple-choice", 0.8, "Binary indicators suggesting multiple choice option"⟩
                else
                  if (uniqueCount : ℚ) ≤ min 20 ((totalCount : ℚ) * 0.5) then
                    ⟨"single-choice", if uniqueCount ≤ 10 then 0.7 else 0.6,
                      "Limited unique values (" ++ toString uniqueCount
                        ++ ") suggesting categorical data"⟩
                  else
                    ⟨"single-choice", 0.4,
                      "Default classification - " ++ toString uniqueCount
                        ++ " unique values from " ++ toString totalCount ++ " responses"⟩

/-- CLAIM C8 (amended): when *strictly more than* 60% of the non-empty
sampled cells are date-like and the header carries a date keyword or the
unique-value ratio exceeds 0.7, the cascade classifies the column as `date`
with confidence 0.95 on a keyword hit and 0.8 otherwise. -/
theorem analyzeQuestionType_date_branch (K : JsEnv) (header : String)
    (values : List String) (sampleSize : ℕ)
    (hgt : (((cleanValuesOf values sampleSize).filter (isDateCell K)).length : ℚ)
      > ((cleanValuesOf values sampleSize).length : ℚ) * 0.6)
    (hkw : hasDateKeyword header = true
      ∨ (((cleanValuesOf values sampleSize).eraseDups.length : ℚ)
          / ((cleanValuesOf values sampleSize).length : ℚ)) > 0.7) :
    (analyzeQuestionType K header values sampleSize).qtype = "date"
    ∧ (analyzeQuestionType K header values sampleSize).confidence
      = (if hasDateKeyword header then 0.95 else 0.8) := by
  have hne : (cleanValuesOf values sampleSize).isEmpty ≠ true := by
    intro he
    rw [List.isEmpty_iff] at he
    rw [he] at hgt
    simp at hgt
  simp only [analyzeQuestionType]
  rw [if_neg hne, if_pos ⟨hgt, hkw⟩]
  exact ⟨rfl, rfl⟩

/-- The exact-60% dataset refuting the "at least 60%" reading of C8. -/
def c8vals : List String :=
  ["2020-01-01", "2020-01-02", "2020-01-03", "a1", "b2"]

/-- CLAIM C8 (counterexample): on a header containing the keyword `date`
and five values of which exactly three (60%, not more) match a date
pattern, the cascade does *not* classify the column as `date` — it falls
all the way to `single-choice` — because the code requires strictly more
than 60%. -/
theorem analyzeQuestionType_sixty_percent_not_date :
    (analyzeQuestionType envZero "visit date" c8vals 100).qtype = "single-choice"
    ∧ (((cleanValuesOf c8vals 100).filter (isDateCell envZero)).length : ℚ)
      = ((cleanValuesOf c8vals 100).length : ℚ) * (60 / 100)
    ∧ hasDateKeyword "visit date" = true := by
  have hclean : cleanValuesOf c8vals 100 = c8vals := by decide
  have hdm : (c8vals.filter (isDateCell envZero)).length = 3 := by decide
  have hlen : c8vals.length = 5 := by decide
  have hdup : c8vals.eraseDups.length = 5 := by decide
  have hnum : c8vals.filterMap jsNumber = [] := by decide
  have hkw : hasDateKeyword "visit date" = true := by decide
  refine ⟨?_, ?_, hkw⟩
  · simp only [analyzeQuestionType]
    rw [hclean]
    rw [if_neg (show ¬ c8vals.isEmpty = true from by decide)]
    rw [if_neg (fun hc => by rw [hdm, hlen] at hc; revert hc; norm_num)]
    rw [if_neg (fun hc => by rw [hdup] at hc; revert hc; norm_num)]
    rw [if_neg (fun hc => by rw [hnum] at hc; revert hc; rw [hlen]; norm_num)]
    rw [if_neg (fun hc => by rw [hnum] at hc; revert hc; rw [hlen]; norm_num)]
    rw [if_neg (fun hc => by rw [hdm, hlen] at hc; revert hc; norm_num)]
    rw [if_neg (fun hc => by rw [hnum] at hc; revert hc; rw [hlen]; norm_num)]
    rw [if_neg (fun hc => by
      rw [show (c8vals.filter (fun v =>
        let lv := jsLower v
        lv == "1" || lv == "0" || lv == "yes" || lv == "no" || lv == "true"
          || lv == "false" || lv == "selected" || lv == "x")).length = 0 from by decide,
        hlen] at hc
      revert hc; norm_num)]
    split <;> rfl
  · rw [hclean]
    rw [show ((c8vals.filter (isDateCell envZero)).length : ℚ) = 3 from by rw [hdm]; norm_num,
      show ((c8vals.length : ℕ) : ℚ) = 5 from by rw [hlen]; norm_num]
    norm_num

/-- Witness for the amended C8 date branch: six values, four of which (>60%)
match date patterns, under a keyword header. -/
theorem analyzeQuestionType_date_branch_witness :
    (analyzeQuestionType envZero "start date"
      ["2020-01-01", "2020-01-02", "2020-01-03", "2020-01-04", "a1"] 100).qtype = "date" := by
  refine (analyzeQuestionType_date_branch envZero "start date" _ 100 ?_ ?_).1
  · rw [show ((cleanValuesOf ["2020-01-01", "2020-01-02", "2020-01-03", "2020-01-04", "a1"]
        100).filter (isDateCell envZero)).length = 4 from by decide,
      show (cleanValuesOf ["2020-01-01", "2020-01-02", "2020-01-03", "2020-01-04", "a1"]
        100).length = 5 from by decide]
    norm_num
  · exact Or.inl (by decide)

/-! ## OpenEndCoder (`openEndCoding.ts`)

Cluster sizes and category bounds are natural numbers (the UI supplies
integers); the similarity threshold and all scores are rationals.  The
TF-IDF `tf` of an empty token list (a JS 0/0 = NaN) follows the rational
0-division convention; it only influences which clusters form, never the
structural facts proved below. -/

/-- Coding parameters (`CodingSettings`). -/
structure CodingSettings where
  minCategorySize : ℕ
  maxCategories : ℕ
  similarityThreshold : ℚ
  useSemanticClustering : Bool
  excludeShortResponses : Bool
  minResponseLength : ℕ
  deriving DecidableEq, Repr

/-- One produced category (`OpenEndCategory`). -/
structure OpenEndCategory where
  id : String
  name : String
  description : String
  keywords : List String
  sampleResponses : List String
  responseCount : ℕ
  confidence : ℚ
  deriving DecidableEq, Repr

/-- One coded response (`OpenEndResponse`). -/
structure OpenEndResponse where
  id : String
  text : String
  categoryId : String
  confidence : ℚ
  rowIndex : ℕ
  deriving DecidableEq, Repr

/-- The batch output (`OpenEndCoding`). -/
structure OpenEndCoding where
  questionColumn : String
  responses : List OpenEndResponse
  categories : List OpenEndCategory
  settings : CodingSettings
  deriving DecidableEq, Repr

/-- Trim, drop blank/`null`/`undefined` and (optionally) short responses,
keeping original indices (`preprocessResponses`). -/
def preprocessResponses (settings : CodingSettings) (responses : List String) :
    List (String × ℕ) :=
  (responses.enum.map (fun p => (jsTrim p.2, p.1))).filter (fun item =>
    !(item.1 == "" || item.1 == "null" || item.1 == "undefined")
    && !(settings.excludeShortResponses
          && item.1.toList.length < settings.minResponseLength))

/-- JS `\w`. -/
def isWordChar (c : Char) : Bool := c.isAlphanum || c == '_'

def stopWordList : List String :=
  ["the", "a", "an", "and", "or", "but", "in", "on", "at", "to", "for", "of",
   "with", "by", "is", "are", "was", "were", "be", "been", "have", "has", "had",
   "do", "does", "did", "will", "would", "could", "should", "may", "might",
   "can", "this", "that", "these", "those"]

/-- Maximal non-whitespace runs. -/
def wordRuns : List Char → List (List Char)
  | [] => []
  | c :: rest =>
    if c.isWhitespace then wordRuns rest
    else
      match wordRuns rest with
      | [] => [[c]]
      | g :: gs =>
        match rest with
        | [] => [[c]]
        | d :: _ => if d.isWhitespace then [c] :: g :: gs else (c :: g) :: gs

/-- Lowercase, strip punctuation to spaces, split on whitespace, keep words
longer than two characters that are not stop words (`tokenize`).  The empty
fragments a JS `split(/\s+/)` can produce are removed by the length filter
either way. -/
def tokenize (text : String) : List String :=
  let cleaned := (text.toList.map Char.toLower).map
    (fun c => if !(isWordChar c || c.isWhitespace) then ' ' else c)
  (((wordRuns cleaned).map List.asString).filter
    (fun w => 2 < w.toList.length)).filter (fun w => !stopWordList.contains w)

/-- Occurrence counting in first-seen order (a JS `Map`). -/
def countOccurrences (words : List String) : List (String × ℕ) :=
  words.foldl (fun acc w =>
    if acc.any (fun p => p.1 == w) then
      acc.map (fun p => if p.1 == w then (p.1, p.2 + 1) else p)
    else acc ++ [(w, 1)]) []

/-- Vocabulary of terms with at least two occurrences and at most 80% of the
document count (`buildVocabulary`), sorted. -/
def buildVocabulary (documents : List String) : List String :=
  let wordCounts := countOccurrences (documents.flatMap tokenize)
  jsSort jsStrLt ((wordCounts.filter (fun p =>
    decide (2 ≤ p.2 ∧ (p.2 : ℚ) ≤ (documents.length : ℚ) * 0.8))).map Prod.fst)

/-- TF-IDF vectors over the vocabulary (`calculateTFIDF`). -/
def calculateTFIDF (K : JsEnv) (documents : List String) (vocabulary : List String) :
    List (List ℚ) :=
  documents.map (fun doc =>
    let words := tokenize doc
    let wordCounts := countOccurrences words
    vocabulary.map (fun term =>
      let tf : ℚ := (((wordCounts.lookup term).getD 0 : ℕ) : ℚ) / (words.length : ℚ)
      let df := (documents.filter (fun d => (tokenize d).contains term)).length
      tf * K.log ((documents.length : ℚ) / ((df : ℚ) + 1))))

/-- Cosine similarity (`cosineSimilarity`). -/
def cosineSimilarity (K : JsEnv) (vec1 vec2 : List ℚ) : ℚ :=
  let dotProduct := ((vec1.zip vec2).map (fun p => p.1 * p.2)).sum
  let magnitude := K.sqrt ((vec1.map (fun x => x * x)).sum)
    * K.sqrt ((vec2.map (fun x => x * x)).sum)
  if magnitude > 0 then dotProduct / magnitude else 0

/-- Average-linkage distance between two clusters (`calculateClusterDistance`). -/
def calculateClusterDistance (K : JsEnv) (tfidf : List (List ℚ))
    (allResponses : List (String × ℕ)) (cluster1 cluster2 : List (String × ℕ)) : ℚ :=
  let sims := cluster1.flatMap (fun r1 => cluster2.filterMap (fun r2 =>
    match allResponses.findIdx? (fun r => r.2 == r1.2),
      allResponses.findIdx? (fun r => r.2 == r2.2) with
    | some i1, some i2 => some (cosineSimilarity K (tfidf.getD i1 []) (tfidf.getD i2 []))
    | _, _ => none))
  if 0 < sims.length then 1 - sims.sum / (sims.length : ℚ) else 1

/-- The (row-major, strict-improvement) search for the closest cluster pair,
`Option ℚ` standing for the `Infinity` start. -/
def closestPair (K : JsEnv) (tfidf : List (List ℚ)) (allResponses : List (String × ℕ))
    (clusters : List (List (String × ℕ))) : Option ℚ × (ℕ × ℕ) :=
  ((List.range clusters.length).flatMap (fun i =>
    (((List.range clusters.length).filter (fun j => i < j)).map (fun j => (i, j))))).foldl
    (fun (acc : Option ℚ × (ℕ × ℕ)) p =>
      let d := calculateClusterDistance K tfidf allResponses
        (clusters.getD p.1 []) (clusters.getD p.2 [])
      match acc.1 with
      | none => (some d, p)
      | some m => if d < m then (some d, p) else acc)
    (none, (0, 1))

/-- One while-iteration body plus fuel (`hierarchicalClustering`):
stop when the cluster count is within bounds or the best merge distance
exceeds the threshold, else merge the closest pair. -/
def hcLoop (K : JsEnv) (settings : CodingSettings) (tfidf : List (List ℚ))
    (allResponses : List (String × ℕ)) :
    ℕ → List (List (String × ℕ)) → List (List (String × ℕ))
  | 0, clusters => clusters
  | fuel + 1, clusters =>
    if clusters.length ≤ settings.maxCategories then clusters
    else
      match closestPair K tfidf allResponses clusters with
      | (none, _) => clusters
      | (some d, (i, j)) =>
        if d > settings.similarityThreshold then clusters
        else
          hcLoop K settings tfidf allResponses fuel
            (((clusters.enum.map (fun p =>
              if p.1 = i then p.2 ++ clusters.getD j [] else p.2)).enum.filter
                (fun p => decide (p.1 ≠ j))).map Prod.snd)

/-- Agglomerative clustering from singletons, dropping undersized clusters
(`hierarchicalClustering`). -/
def hierarchicalClustering (K : JsEnv) (settings : CodingSettings)
    (tfidf : List (List ℚ)) (responses : List (String × ℕ)) :
    List (List (String × ℕ)) :=
  (hcLoop K settings tfidf responses responses.length
    (responses.map (fun r => [r]))).filter
    (fun cluster => decide (settings.minCategorySize ≤ cluster.length))

/-- Top repeated words of a cluster (`extractClusterKeywords`). -/
def extractClusterKeywords (texts : List String) : List String :=
  ((jsSort (fun a b => decide (b.2 < a.2))
    ((countOccurrences (texts.flatMap tokenize)).filter
      (fun p => decide (2 ≤ p.2)))).take 10).map Prod.fst

/-- First character uppercased (`charAt(0).toUpperCase() + slice(1)`). -/
def capitalizeWord (s : String) : String :=
  match s.toList with
  | [] => ""
  | c :: rest => (c.toUpper :: rest).asString

def categoryThemeMap : List (String × String) :=
  [("quality", "Quality & Performance"), ("price", "Price & Value"),
   ("service", "Customer Service"), ("fast", "Speed & Efficiency"),
   ("location", "Location & Access"), ("easy", "Convenience & Ease")]

/-- Cluster naming (`generateCategoryName`). -/
def generateCategoryName (keywords : List String) : String :=
  if keywords.isEmpty then "Miscellaneous"
  else
    let topKeywords := keywords.take 3
    match categoryThemeMap.find?
        (fun e => topKeywords.any (fun kw => strContains kw e.1)) with
    | some e => e.2
    | none => String.intercalate " & " (topKeywords.map capitalizeWord)

/-- Clusters to categories (`clustersToCategories`). -/
def clustersToCategories (clusters : List (List (String × ℕ))) :
    List OpenEndCategory :=
  clusters.enum.map (fun p =>
    let keywords := extractClusterKeywords (p.2.map Prod.fst)
    { id := "semantic_cat_" ++ toString p.1
      name := generateCategoryName keywords
      description := "Auto-generated category based on semantic similarity"
      keywords := keywords
      sampleResponses := (p.2.take 5).map Prod.fst
      responseCount := p.2.length
      confidence := 0.8 })

/-- The semantic-clustering strategy (`semanticClustering`). -/
def semanticClustering (K : JsEnv) (settings : CodingSettings)
    (responses : List (String × ℕ)) : List OpenEndCategory :=
  let documents := responses.map Prod.fst
  let vocabulary := buildVocabulary documents
  let tfidf := calculateTFIDF K documents vocabulary
  clustersToCategories (hierarchicalClustering K settings tfidf responses)

/-- 1-, 2- and 3-gram phrases appearing at least twice, by descending
frequency, top 50 (`extractKeyPhrases`). -/
def extractKeyPhrases (texts : List String) : List (String × ℕ) :=
  let phrases := texts.flatMap (fun text =>
    let words := tokenize text
    ([1, 2, 3].flatMap (fun n =>
      if words.length < n then []
      else (List.range (words.length - n + 1)).map (fun i =>
        String.intercalate " " ((words.drop i).take n)))))
  ((jsSort (fun a b => decide (b.2 < a.2))
    ((countOccurrences phrases).filter (fun p => decide (2 ≤ p.2)))).take 50)

/-- The theme library local to the open-end coder (`identifyThemes`). -/
def coderThemeGroups : List (String × List String × String) :=
  [("Quality & Performance",
    ["quality", "performance", "good", "bad", "excellent", "poor", "reliable",
     "durable", "effective"],
    "Comments about product or service quality and performance"),
   ("Price & Value",
    ["price", "cost", "expensive", "cheap", "affordable", "value", "money",
     "budget", "worth"],
    "Comments about pricing, cost, and value for money"),
   ("Customer Service",
    ["service", "staff", "customer", "support", "help", "friendly", "rude",
     "professional", "helpful"],
    "Comments about customer service and staff interactions"),
   ("Speed & Efficiency",
    ["fast", "slow", "quick", "time", "wait", "delay", "speed", "efficient",
     "prompt", "immediate"],
    "Comments about speed, timing, and efficiency"),
   ("Convenience & Ease",
    ["convenient", "easy", "simple", "difficult", "complicated",
     "user-friendly", "accessible"],
    "Comments about convenience and ease of use"),
   ("Location & Accessibility",
    ["location", "close", "near", "far", "parking", "distance", "accessible",
     "convenient"],
    "Comments about location and accessibility"),
   ("Product Features",
    ["feature", "function", "design", "style", "variety", "selection",
     "options", "capability"],
    "Comments about product features and functionality"),
   ("Communication",
    ["communication", "information", "clear", "confusing", "explanation",
     "instructions"],
    "Comments about communication and information clarity")]

/-- Does the lowercased text mention any keyword (`matchesTheme`)? -/
def matchesTheme (text : String) (keywords : List String) : Bool :=
  keywords.any (fun kw => strContains (jsLower text) (jsLower kw))

/-- Themes whose keywords hit the phrase list, with frequency-share
confidence, sorted by descending confidence (`identifyThemes`). -/
def identifyThemes (phrases : List (String × ℕ)) :
    List (String × List String × String × ℚ) :=
  jsSort (fun a b => decide (b.2.2.2 < a.2.2.2))
    (coderThemeGroups.filterMap (fun tg =>
      let matchingPhrases := phrases.filter (fun p =>
        tg.2.1.any (fun kw => strContains p.1 kw))
      if matchingPhrases.isEmpty then none
      else
        let totalFrequency := (matchingPhrases.map Prod.snd).sum
        some (tg.1, tg.2.1, tg.2.2,
          min ((totalFrequency : ℚ) / (phrases.length : ℚ)) 1)))

/-- The keyword-theming strategy (`keywordBasedClustering`). -/
def keywordBasedClustering (settings : CodingSettings)
    (responses : List (String × ℕ)) : List OpenEndCategory :=
  let themes := identifyThemes (extractKeyPhrases (responses.map Prod.fst))
  let categories := themes.enum.filterMap (fun p =>
    let categoryResponses := responses.filter (fun r => matchesTheme r.1 p.2.2.1)
    if settings.minCategorySize ≤ categoryResponses.length then
      some
        { id := "cat_" ++ toString p.1
          name := p.2.1
          description := p.2.2.2.1
          keywords := p.2.2.1
          sampleResponses := (categoryResponses.take 5).map Prod.fst
          responseCount := categoryResponses.length
          confidence := p.2.2.2.2 }
    else (none : Option OpenEndCategory))
  let uncategorizedResponses := responses.filter (fun r =>
    !(categories.any (fun cat => matchesTheme r.1 cat.keywords)))
  if settings.minCategorySize ≤ uncategorizedResponses.length then
    categories ++
      [{ id := "cat_other"
         name := "Other/Miscellaneous"
         description := "Responses that did not fit into other categories"
         keywords := []
         sampleResponses := (uncategorizedResponses.take 5).map Prod.fst
         responseCount := uncategorizedResponses.length
         confidence := 0.5 }]
  else categories

/-- Keyword-share score of a response against a category
(`calculateCategoryScore`). -/
def calculateCategoryScore (text : String) (category : OpenEndCategory) : ℚ :=
  let score := (category.keywords.filter
    (fun kw => strContains (jsLower text) (jsLower kw))).length
  if 0 < category.keywords.length then
    (score : ℚ) / (category.keywords.length : ℚ)
  else 0

/-- Best-category assignment (`assignResponsesToCategories`).  The JS
default `categories[categories.length - 1]` is `undefined` on an empty
category list, and reading `.id` from it then throws; the `none` result
models that crash (only reachable with at least one response). -/
def assignResponsesToCategories (responses : List (String × ℕ))
    (categories : List OpenEndCategory) : Option (List OpenEndResponse) :=
  match categories.getLast? with
  | none => if responses.isEmpty then some [] else none
  | some lastCat =>
    some (responses.map (fun r =>
      let best := categories.foldl (fun (acc : OpenEndCategory × ℚ) c =>
        let score := calculateCategoryScore r.1 c
        if score > acc.2 then (c, score) else acc) (lastCat, 0)
      { id := "response_" ++ toString r.2
        text := r.1
        categoryId := best.1.id
        confidence := best.2
        rowIndex := r.2 }))

/-- The full batch pipeline (`OpenEndCoder.codeResponses`): preprocess,
categorize by the configured strategy, assign. -/
def codeResponses (K : JsEnv) (settings : CodingSettings) (responses : List String)
    (questionColumn : String) : Option OpenEndCoding :=
  let cleanResponses := preprocessResponses settings responses
  let categories :=
    if settings.useSemanticClustering then semanticClustering K settings cleanResponses
    else keywordBasedClustering settings cleanResponses
  (assignResponsesToCategories cleanResponses categories).map (fun coded =>
    { questionColumn := questionColumn
      responses := coded
      categories := categories
      settings := settings })

/-- The best-category fold never leaves the category list: whatever it
returns is the initial candidate or one of the folded elements. -/
theorem bestCategory_foldl_mem (text : String) (cats : List OpenEndCategory) :
    ∀ (l : List OpenEndCategory) (init : OpenEndCategory × ℚ),
      init.1 ∈ cats → (∀ c ∈ l, c ∈ cats) →
      (l.foldl (fun (acc : OpenEndCategory × ℚ) c =>
        let score := calculateCategoryScore text c
        if score > acc.2 then (c, score) else acc) init).1 ∈ cats := by
  intro l
  induction l with
  | nil => intro init hinit _; exact hinit
  | cons c cs ih =>
    intro init hinit hl
    simp only [List.foldl_cons]
    apply ih
    · by_cases hs : calculateCategoryScore text c > init.2
      · simpa [hs] using hl c (List.mem_cons_self c cs)
      · simpa [hs] using hinit
    · exact fun d hd => hl d (List.mem_cons_of_mem _ hd)

/-- Every response `assignResponsesToCategories` emits points at a category
of the given list. -/
theorem assignResponsesToCategories_mem (responses : List (String × ℕ))
    (categories : List OpenEndCategory) (out : List OpenEndResponse)
    (h : assignResponsesToCategories responses categories = some out) :
    ∀ r ∈ out, ∃ c ∈ categories, r.categoryId = c.id := by
  unfold assignResponsesToCategories at h
  cases hlast : categories.getLast? with
  | none =>
    rw [hlast] at h
    by_cases hre : responses.isEmpty
    · rw [if_pos hre] at h
      cases h
      intro r hr
      cases hr
    · rw [if_neg hre] at h
      cases h
  | some lastCat =>
    rw [hlast] at h
    cases h
    intro r hr
    rw [List.mem_map] at hr
    obtain ⟨x, _, rfl⟩ := hr
    refine ⟨_, ?_, rfl⟩
    apply bestCategory_foldl_mem x.1 categories categories (lastCat, 0)
    · exact List.mem_of_mem_getLast? hlast
    · exact fun c hc => hc

/-- CLAIM C9: every response coded by `codeResponses` carries the id of a
category present in the returned category list (whenever the call returns
at all, i.e. does not crash on an empty category list). -/
theorem codeResponses_assigns_existing_category (K : JsEnv)
    (settings : CodingSettings) (responses : List String)
    (questionColumn : String) (out : OpenEndCoding)
    (h : codeResponses K settings responses questionColumn = some out) :
    ∀ r ∈ out.responses, ∃ c ∈ out.categories, r.categoryId = c.id := by
  unfold codeResponses at h
  rw [Option.map_eq_some'] at h
  obtain ⟨coded, hc, rfl⟩ := h
  exact assignResponsesToCategories_mem _ _ _ hc

/-- A concrete keyword-path run for the round-trip guarantee: one response
that matches no theme lands in the `cat_other` category. -/
def c9Settings : CodingSettings :=
  { minCategorySize := 1, maxCategories := 20, similarityThreshold := 0,
    useSemanticClustering := false, excludeShortResponses := false,
    minResponseLength := 5 }

def c9Out : OpenEndCoding :=
  { questionColumn := "Q"
    responses := [{ id := "response_0", text := "zzzz", categoryId := "cat_other",
                    confidence := 0, rowIndex := 0 }]
    categories := [{ id := "cat_other", name := "Other/Miscellaneous",
                     description := "Responses that did not fit into other categories",
                     keywords := [], sampleResponses := ["zzzz"], responseCount := 1,
                     confidence := 0.5 }]
    settings := c9Settings }

theorem codeResponses_assigns_existing_category_witness :
    codeResponses envZero c9Settings ["zzzz"] "Q" = some c9Out
    ∧ ∀ r ∈ c9Out.responses, ∃ c ∈ c9Out.categories, r.categoryId = c.id :=
  ⟨rfl, codeResponses_assigns_existing_category envZero c9Settings ["zzzz"] "Q"
    c9Out rfl⟩

/-- CLAIM C1 (code-bug evidence): on a six-column `_Rank1`/`_Rank2` battery
over three options, all typed `ranking`, the detector returns exactly one
structure for the shared root — but with `maxRanks = 1` instead of the
spec's 2, and with the `_Rank2` columns bound to `rank1Columns`
(`rank2Columns` empty), because `analyzeRankStructure` discards the first
rank group as "ungrouped" even though every group is keyed by a found rank
number. -/
theorem detectRank_two_rank_battery_offByOne :
    detectRankQuestionStructure
      ["Q5_Rank1_OptionA", "Q5_Rank1_OptionB", "Q5_Rank1_OptionC",
       "Q5_Rank2_OptionA", "Q5_Rank2_OptionB", "Q5_Rank2_OptionC"]
      [("Q5_Rank1_OptionA", "ranking"), ("Q5_Rank1_OptionB", "ranking"),
       ("Q5_Rank1_OptionC", "ranking"), ("Q5_Rank2_OptionA", "ranking"),
       ("Q5_Rank2_OptionB", "ranking"), ("Q5_Rank2_OptionC", "ranking")]
    = [{ questionName := "Q5"
         options := ["OptionA", "OptionB", "OptionC"]
         maxRanks := 1
         rank1Columns := ["Q5_Rank2_OptionA", "Q5_Rank2_OptionB", "Q5_Rank2_OptionC"]
         rank2Columns := []
         rank3Columns := [] }] := by decide

end Interlytics
